import Mathlib

/-!
# DA9063 PMIC driver: paged register access

A shallow embedding of `drivers/power/pmic/da9063.c` and theorems about its
page selector (`da9063_select_page`), its register validity test
(`da9063_reg_valid`), the two register operations built on them
(`da9063_read`, `da9063_write`) and the device setup (`da9063_probe`,
`da9063_bind`); and of `spl_board_boot_device` of
`board/kontron/imx/mx8mm/spl.c`.

Conventions of the embedding:

* C unsigned values are natural numbers; a conversion that C performs
  (`uint` to `u8`, `uint` to `int`, `int` to `uint`) is written out as an
  explicit reduction modulo a power of two.
* The I2C bus is an injected capability.  Its answer to a transaction may
  depend on everything that was transferred on the bus before, so it is a
  function of the transaction history and of the transaction requested.
  Every transaction the driver issues is appended to the history kept in
  the device, together with the return code the bus gave.
* Diagnostic output (`pr_err`, `debug`) has no effect on the state and is
  left out.
-/

namespace DA9063

/-! ## Data model -/

/-- The driver's private data, `struct da9063_priv`: three `u8` fields. -/
structure da9063_priv where
  cur_page : Nat
  page_mask : Nat
  offset_mask : Nat
  deriving DecidableEq, Repr

/-- The three fields of `struct da9063_priv` are `u8`: each value is below 256. -/
def da9063_priv.wf (p : da9063_priv) : Prop :=
  p.cur_page < 256 ∧ p.page_mask < 256 ∧ p.offset_mask < 256

instance (p : da9063_priv) : Decidable p.wf := by
  unfold da9063_priv.wf; infer_instance

/-- A range of unreadable registers, `struct da9063_reg_hole`: two `u16` bounds. -/
structure da9063_reg_hole where
  first : Nat
  last : Nat
  deriving DecidableEq, Repr

/-- One transaction requested from the bus: `dm_i2c_write (dev, offset, buffer, len)`
with the bytes of the buffer, or `dm_i2c_read (dev, offset, buffer, len)`. -/
inductive bus_op where
  | write (offset : Nat) (bytes : List Nat)
  | read (offset : Nat) (len : Nat)
  deriving DecidableEq, Repr

/-- A transaction that was issued, with the return code of the bus. -/
structure bus_event where
  op : bus_op
  ret : Int
  deriving DecidableEq, Repr

/-- The answer of the bus: the return code, and for a read the bytes that the
bus left in the caller's buffer. -/
structure bus_reply where
  ret : Int
  data : List Nat
  deriving DecidableEq, Repr

/-- The device, `struct udevice`, as far as this driver uses it: its private
data and the history of the transactions issued on its bus, oldest first. -/
structure udevice where
  priv : da9063_priv
  bus : List bus_event
  deriving DecidableEq, Repr

/-- What the driver file takes from outside: the register number
`DA9063_REG_PAGE_CON` and the entries of the table `da9063_reg_holes`
(both come from `power/da9063_pmic.h`), and the I2C transport behind
`dm_i2c_read` and `dm_i2c_write`. -/
structure da9063_env where
  REG_PAGE_CON : Nat
  reg_holes : List da9063_reg_hole
  i2c : List bus_event → bus_op → bus_reply

/-- Modelled from the spec: the errno numbers of `errno.h` are not part of the
sources at hand; this is the code of the "I/O error" (the usual value of the
constant). -/
def EIO : Int := 5

/-- Modelled from the spec: the errno numbers of `errno.h` are not part of the
sources at hand; this is the code of the "no data" error (the usual value of
the constant). -/
def ENODATA : Int := 61

/-! ## C integer conversions -/

/-- Conversion of a C `uint` value to `int` (32 bit, two's complement). -/
def int_of_uint (x : Nat) : Int :=
  if x % 2 ^ 32 < 2 ^ 31 then ((x % 2 ^ 32 : Nat) : Int)
  else ((x % 2 ^ 32 : Nat) : Int) - 2 ^ 32

/-- Conversion of a C `int` value to `uint` (32 bit). -/
def uint_of_int (i : Int) : Nat :=
  (i % 2 ^ 32).toNat

/-! ## The transport -/

/-- The function `dm_i2c_write (dev, offset, buffer, len)`: the bus answers, the
transaction is recorded, the return code is handed back. -/
def dm_i2c_write (env : da9063_env) (dev : udevice) (offset : Nat) (buffer : List Nat) :
    Int × udevice :=
  let reply := env.i2c dev.bus (bus_op.write offset buffer)
  (reply.ret, { dev with bus := dev.bus ++ [⟨bus_op.write offset buffer, reply.ret⟩] })

/-- The function `dm_i2c_read (dev, offset, buffer, len)`: as `dm_i2c_write`, and
the caller's buffer afterwards holds what the bus left in it. -/
def dm_i2c_read (env : da9063_env) (dev : udevice) (offset : Nat) (len : Nat) :
    Int × List Nat × udevice :=
  let reply := env.i2c dev.bus (bus_op.read offset len)
  (reply.ret, reply.data, { dev with bus := dev.bus ++ [⟨bus_op.read offset len, reply.ret⟩] })

/-! ## The driver -/

/-- The loop of `da9063_reg_valid` over the entries of the hole table. -/
def reg_valid_loop (reg : Nat) : List da9063_reg_hole → Bool
  | [] => true
  | hole :: rest =>
    if reg ≥ hole.first ∧ reg ≤ hole.last then false
    else reg_valid_loop reg rest

/-- The function `da9063_reg_valid (reg)`. -/
def da9063_reg_valid (env : da9063_env) (reg : Nat) : Bool :=
  reg_valid_loop reg env.reg_holes

/-- The local `u8 page = (reg / 128) & priv->page_mask` of `da9063_select_page`. -/
def reg_page (priv : da9063_priv) (reg : Nat) : Nat :=
  ((reg / 128) &&& priv.page_mask) % 256

/-- The local `uint offset = reg & priv->offset_mask` of `da9063_select_page`. -/
def reg_offset (priv : da9063_priv) (reg : Nat) : Nat :=
  reg &&& priv.offset_mask

/-- The function `da9063_select_page (dev, reg)`: the offset or a negative error
code, and the device afterwards. -/
def da9063_select_page (env : da9063_env) (dev : udevice) (reg : Nat) : Int × udevice :=
  let page := reg_page dev.priv reg
  let offset := reg_offset dev.priv reg
  if page = dev.priv.cur_page then
    (int_of_uint offset, dev)
  else if offset = env.REG_PAGE_CON then
    (int_of_uint offset, dev)
  else
    let r := dm_i2c_write env dev env.REG_PAGE_CON [page]
    if r.1 < 0 then
      (r.1, r.2)
    else
      (int_of_uint offset, { r.2 with priv := { r.2.priv with cur_page := page } })

/-- The function `da9063_write (dev, reg, buff, len)`, the buffer given by its
bytes: the return code and the device afterwards. -/
def da9063_write (env : da9063_env) (dev : udevice) (reg : Nat) (buff : List Nat) :
    Int × udevice :=
  let s := da9063_select_page env dev reg
  if s.1 < 0 then
    (s.1, s.2)
  else
    let w := dm_i2c_write env s.2 (uint_of_int s.1) buff
    if w.1 ≠ 0 then
      (- EIO, w.2)
    else
      (0, w.2)

/-- The function `da9063_read (dev, reg, buff, len)`: the return code, the
contents of the buffer afterwards, and the device afterwards. -/
def da9063_read (env : da9063_env) (dev : udevice) (reg : Nat) (buff : List Nat) (len : Nat) :
    Int × List Nat × udevice :=
  if ¬ da9063_reg_valid env reg then
    (- ENODATA, buff, dev)
  else
    let s := da9063_select_page env dev reg
    if s.1 < 0 then
      (s.1, buff, s.2)
    else
      let r := dm_i2c_read env s.2 (uint_of_int s.1) len
      if r.1 ≠ 0 then
        (- EIO, r.2.1, r.2.2)
      else
        (0, r.2.1, r.2.2)

/-! ## Sample configuration used for concrete evaluations -/

/-- A bus on which every transaction succeeds; a read leaves zero bytes. -/
def bus_ok : List bus_event → bus_op → bus_reply :=
  fun _ op =>
    match op with
    | bus_op.write _ _ => ⟨0, []⟩
    | bus_op.read _ len => ⟨0, List.replicate len 0⟩

/-- A bus on which every transaction fails with the code `-121`. -/
def bus_fail : List bus_event → bus_op → bus_reply :=
  fun _ _ => ⟨-121, []⟩

/-- The private data after `da9063_probe` on a freshly allocated (zeroed)
device: page 0, page mask `0x2`, offset mask `0xff`. -/
def priv_probed : da9063_priv := ⟨0, 0x2, 0xff⟩

/-- A probed device with no bus traffic so far. -/
def dev_probed : udevice := ⟨priv_probed, []⟩

/-- A device whose masks tell eight pages of 128 registers apart, with no bus
traffic so far. -/
def dev_wide : udevice := ⟨⟨0, 0x7, 0x7f⟩, []⟩

/-- A sample environment: page control register at offset 0, two holes, working bus. -/
def env_ok : da9063_env := ⟨0, [⟨0x3a, 0x3f⟩, ⟨0xc0, 0xff⟩], bus_ok⟩

/-- The sample environment with a failing bus. -/
def env_fail : da9063_env := ⟨0, [⟨0x3a, 0x3f⟩, ⟨0xc0, 0xff⟩], bus_fail⟩

/-- A register access requested through the operations table `da9063_ops`:
its `.read` entry or its `.write` entry. -/
inductive pmic_req where
  | read (reg : Nat) (buff : List Nat) (len : Nat)
  | write (reg : Nat) (buff : List Nat)
  deriving DecidableEq, Repr

/-- The register address of a request. -/
def pmic_req.reg : pmic_req → Nat
  | pmic_req.read reg _ _ => reg
  | pmic_req.write reg _ => reg

/-- The operations table `da9063_ops`: a request is served by `da9063_read` or by
`da9063_write`; the return code and the device afterwards. -/
def da9063_ops (env : da9063_env) (dev : udevice) : pmic_req → Int × udevice
  | pmic_req.read reg buff len =>
    let r := da9063_read env dev reg buff len
    (r.1, r.2.2)
  | pmic_req.write reg buff => da9063_write env dev reg buff

/-- A sequence of requests served one after the other; the device at the end. -/
def da9063_run (env : da9063_env) (dev : udevice) (reqs : List pmic_req) : udevice :=
  reqs.foldl (fun d a => (da9063_ops env d a).2) dev

/-- The data transaction of a request, at the in-page offset of its address. -/
def data_op (priv : da9063_priv) : pmic_req → bus_op
  | pmic_req.read reg _ len => bus_op.read (reg &&& priv.offset_mask) len
  | pmic_req.write reg buff => bus_op.write (reg &&& priv.offset_mask) buff

/-- A request that reaches the page selector: every write, and a read of a valid
register. -/
def reaches_selector (env : da9063_env) : pmic_req → Bool
  | pmic_req.read reg _ _ => da9063_reg_valid env reg
  | pmic_req.write _ _ => true

/-- The page switch of `da9063_select_page` for the address `reg`: the call
`dm_i2c_write (dev, DA9063_REG_PAGE_CON, &page, 1)`. -/
def page_switch_op (env : da9063_env) (priv : da9063_priv) (reg : Nat) : bus_op :=
  bus_op.write env.REG_PAGE_CON [reg_page priv reg]

/-- The page switch for the address `reg` as it is recorded when it is issued in
the state `dev`: the transaction and the return code the bus gives it there. -/
def page_switch_event (env : da9063_env) (dev : udevice) (reg : Nat) : bus_event :=
  ⟨page_switch_op env dev.priv reg, (env.i2c dev.bus (page_switch_op env dev.priv reg)).ret⟩

/-- The bus makes every transaction succeed (return code 0). -/
def bus_succeeds (env : da9063_env) : Prop :=
  ∀ (history : List bus_event) (op : bus_op), (env.i2c history op).ret = 0

/-! ## Device setup: probe and bind -/

/-- The function `da9063_probe (dev)`: it sets the two masks and returns 0. -/
def da9063_probe (dev : udevice) : Int × udevice :=
  (0, { dev with priv := { dev.priv with page_mask := 0x2, offset_mask := 0xff } })

/-- Modelled from the spec: the errno numbers of `errno.h` are not part of the
sources at hand; this is the code of the "not found" condition, `ENXIO` (the
usual value of the constant). -/
def ENXIO : Int := 6

/-- What `da9063_bind` takes from the driver model core: `dev_read_subnode`, which
looks a subnode of the device up by name (no node when there is none), and
`pmic_bind_children`, which binds the children declared under a node and
returns how many it bound. -/
structure bind_env where
  dev_read_subnode : String → Option Nat
  pmic_bind_children : Option Nat → Int

/-- The test `ofnode_valid (node)`. -/
def ofnode_valid (node : Option Nat) : Bool :=
  node.isSome

/-- The function `da9063_bind (dev)`: the return code, and the number of children
the call bound (none when `pmic_bind_children` is not reached). -/
def da9063_bind (b : bind_env) : Int × Int :=
  let regulators_node := b.dev_read_subnode "regulators"
  if ¬ ofnode_valid regulators_node then
    (- ENXIO, 0)
  else
    let children := b.pmic_bind_children regulators_node
    (0, children)

/-! ## The page selected in the device -/

/-- The effect of one recorded transaction on the page selected in the device: a
write at the page control offset that the bus did not fail (return code not
negative, the test of `da9063_select_page`) selects the page given by its first
byte; every other transaction leaves the page as it is. -/
def device_page_step (page_con : Nat) (page : Nat) (e : bus_event) : Nat :=
  match e.op with
  | bus_op.write offset (b :: _) => if offset = page_con ∧ 0 ≤ e.ret then b else page
  | _ => page

/-- The page selected in the device itself, read off the bus history: the first
byte of the most recent write at the page control offset that the bus did not
fail, and page 0 before any such write. -/
def device_page (page_con : Nat) (history : List bus_event) : Nat :=
  history.foldl (device_page_step page_con) 0

/-! ## Boot device selection of the board (`board/kontron/imx/mx8mm/spl.c`) -/

/-- The enumeration constants `spl_board_boot_device` uses: the boot modes of
`enum boot_device` named in its case labels, and the `BOOT_DEVICE_*` values it
returns.  Their declarations are in headers outside the sources at hand. -/
structure boot_consts where
  USB_BOOT : Int
  SPI_NOR_BOOT : Int
  SD2_BOOT : Int
  MMC2_BOOT : Int
  SD3_BOOT : Int
  MMC3_BOOT : Int
  BOOT_DEVICE_BOARD : Int
  BOOT_DEVICE_SPI : Int
  BOOT_DEVICE_MMC1 : Int
  BOOT_DEVICE_MMC2 : Int
  BOOT_DEVICE_NONE : Int

/-- The case labels of the switch are pairwise different, as C demands of the
labels of one switch. -/
def boot_consts.labels_distinct (k : boot_consts) : Prop :=
  [k.USB_BOOT, k.SPI_NOR_BOOT, k.SD2_BOOT, k.MMC2_BOOT, k.SD3_BOOT, k.MMC3_BOOT].Nodup

instance (k : boot_consts) : Decidable k.labels_distinct := by
  unfold boot_consts.labels_distinct; infer_instance

/-- The function `spl_board_boot_device (boot_dev_spl)`: the switch, its cases
tried in the order they are written. -/
def spl_board_boot_device (k : boot_consts) (boot_dev_spl : Int) : Int :=
  if boot_dev_spl = k.USB_BOOT then k.BOOT_DEVICE_BOARD
  else if boot_dev_spl = k.SPI_NOR_BOOT then k.BOOT_DEVICE_SPI
  else if boot_dev_spl = k.SD2_BOOT ∨ boot_dev_spl = k.MMC2_BOOT then k.BOOT_DEVICE_MMC1
  else if boot_dev_spl = k.SD3_BOOT ∨ boot_dev_spl = k.MMC3_BOOT then k.BOOT_DEVICE_MMC2
  else k.BOOT_DEVICE_NONE

/-- Sample values of the enumeration constants: the case labels pairwise
different, the results different from `BOOT_DEVICE_NONE`. -/
def boot_consts_sample : boot_consts :=
  { USB_BOOT := 17, SPI_NOR_BOOT := 5, SD2_BOOT := 7, MMC2_BOOT := 11, SD3_BOOT := 8,
    MMC3_BOOT := 12, BOOT_DEVICE_BOARD := 14, BOOT_DEVICE_SPI := 6, BOOT_DEVICE_MMC1 := 1,
    BOOT_DEVICE_MMC2 := 2, BOOT_DEVICE_NONE := 16 }

/-! ## Auxiliary facts -/

theorem reg_page_of_wf (priv : da9063_priv) (reg : Nat) (h : priv.wf) :
    reg_page priv reg = (reg / 128) &&& priv.page_mask := by
  unfold reg_page
  exact Nat.mod_eq_of_lt (lt_of_le_of_lt Nat.and_le_right h.2.1)

theorem reg_offset_lt (priv : da9063_priv) (reg : Nat) (h : priv.wf) :
    reg_offset priv reg < 256 := by
  unfold reg_offset
  exact lt_of_le_of_lt Nat.and_le_right h.2.2

theorem int_of_uint_small (x : Nat) (h : x < 256) : int_of_uint x = (x : Int) := by
  unfold int_of_uint
  have h1 : x % 2 ^ 32 = x := Nat.mod_eq_of_lt (by omega)
  have h2 : x % 2 ^ 32 < 2 ^ 31 := by omega
  rw [if_pos h2, h1]

theorem uint_of_int_small (x : Nat) (h : x < 256) : uint_of_int (x : Int) = x := by
  unfold uint_of_int
  have h1 : ((x : Int) % 2 ^ 32) = (x : Int) := by omega
  rw [h1]
  simp

theorem int_of_uint_offset (priv : da9063_priv) (reg : Nat) (h : priv.wf) :
    int_of_uint (reg_offset priv reg) = ((reg &&& priv.offset_mask : Nat) : Int) :=
  int_of_uint_small _ (reg_offset_lt priv reg h)

theorem reg_valid_loop_false_iff (reg : Nat) (holes : List da9063_reg_hole) :
    reg_valid_loop reg holes = false ↔
      ∃ hole ∈ holes, hole.first ≤ reg ∧ reg ≤ hole.last := by
  induction holes with
  | nil => simp [reg_valid_loop]
  | cons hole rest ih =>
    unfold reg_valid_loop
    by_cases hc : reg ≥ hole.first ∧ reg ≤ hole.last
    · simp only [hc, and_self, if_true, List.mem_cons, true_iff]
      exact ⟨hole, Or.inl rfl, hc⟩
    · rw [if_neg hc, ih]
      constructor
      · rintro ⟨h, hm, hr⟩
        exact ⟨h, List.mem_cons_of_mem _ hm, hr⟩
      · rintro ⟨h, hm, hr⟩
        rcases List.mem_cons.mp hm with rfl | hm
        · exact absurd hr hc
        · exact ⟨h, hm, hr⟩

/-- The selector on a cache hit. -/
theorem select_page_hit (env : da9063_env) (dev : udevice) (reg : Nat)
    (h : reg_page dev.priv reg = dev.priv.cur_page) :
    da9063_select_page env dev reg = (int_of_uint (reg_offset dev.priv reg), dev) := by
  unfold da9063_select_page
  simp [h]

/-- The selector at the page control offset. -/
theorem select_page_page_con (env : da9063_env) (dev : udevice) (reg : Nat)
    (h : reg_offset dev.priv reg = env.REG_PAGE_CON) :
    da9063_select_page env dev reg = (int_of_uint (reg_offset dev.priv reg), dev) := by
  unfold da9063_select_page
  by_cases hp : reg_page dev.priv reg = dev.priv.cur_page
  · simp [hp]
  · simp [hp, h]

/-- The selector when the page switch is needed and its write fails. -/
theorem select_page_switch_fail (env : da9063_env) (dev : udevice) (reg : Nat)
    (hp : reg_page dev.priv reg ≠ dev.priv.cur_page)
    (ho : reg_offset dev.priv reg ≠ env.REG_PAGE_CON)
    (hr : (env.i2c dev.bus (bus_op.write env.REG_PAGE_CON [reg_page dev.priv reg])).ret < 0) :
    da9063_select_page env dev reg =
      ((env.i2c dev.bus (bus_op.write env.REG_PAGE_CON [reg_page dev.priv reg])).ret,
       { priv := dev.priv,
         bus := dev.bus ++ [⟨bus_op.write env.REG_PAGE_CON [reg_page dev.priv reg],
           (env.i2c dev.bus (bus_op.write env.REG_PAGE_CON [reg_page dev.priv reg])).ret⟩] }) := by
  unfold da9063_select_page dm_i2c_write
  simp [hp, ho, hr]

/-- The selector when the page switch is needed and its write does not fail. -/
theorem select_page_switch_ok (env : da9063_env) (dev : udevice) (reg : Nat)
    (hp : reg_page dev.priv reg ≠ dev.priv.cur_page)
    (ho : reg_offset dev.priv reg ≠ env.REG_PAGE_CON)
    (hr : 0 ≤ (env.i2c dev.bus (bus_op.write env.REG_PAGE_CON [reg_page dev.priv reg])).ret) :
    da9063_select_page env dev reg =
      (int_of_uint (reg_offset dev.priv reg),
       { priv := { dev.priv with cur_page := reg_page dev.priv reg },
         bus := dev.bus ++ [⟨bus_op.write env.REG_PAGE_CON [reg_page dev.priv reg],
           (env.i2c dev.bus (bus_op.write env.REG_PAGE_CON [reg_page dev.priv reg])).ret⟩] }) := by
  unfold da9063_select_page dm_i2c_write
  simp [hp, ho, not_lt.mpr hr]

/-- The selector never changes the two masks. -/
theorem select_page_masks (env : da9063_env) (dev : udevice) (reg : Nat) :
    (da9063_select_page env dev reg).2.priv.page_mask = dev.priv.page_mask ∧
    (da9063_select_page env dev reg).2.priv.offset_mask = dev.priv.offset_mask := by
  unfold da9063_select_page dm_i2c_write
  dsimp only
  split_ifs <;> simp

/-- The write operation after a selector call that returned an error. -/
theorem write_of_select_error (env : da9063_env) (dev : udevice) (reg : Nat) (buff : List Nat)
    (r : Int) (dev1 : udevice) (hs : da9063_select_page env dev reg = (r, dev1)) (hr : r < 0) :
    da9063_write env dev reg buff = (r, dev1) := by
  unfold da9063_write
  simp [hs, hr]

/-- The write operation after a selector call that returned an offset. -/
theorem write_of_select_offset (env : da9063_env) (dev : udevice) (reg : Nat) (buff : List Nat)
    (off : Nat) (dev1 : udevice) (hs : da9063_select_page env dev reg = ((off : Int), dev1))
    (hoff : off < 256) :
    da9063_write env dev reg buff =
      (if (env.i2c dev1.bus (bus_op.write off buff)).ret ≠ 0 then - EIO else 0,
       { priv := dev1.priv,
         bus := dev1.bus ++ [⟨bus_op.write off buff,
           (env.i2c dev1.bus (bus_op.write off buff)).ret⟩] }) := by
  unfold da9063_write dm_i2c_write
  have h0 : ¬ ((off : Int) < 0) := by omega
  simp only [hs, h0, if_false, uint_of_int_small off hoff]
  split_ifs <;> rfl

/-- The read operation on an address inside a hole. -/
theorem read_of_invalid (env : da9063_env) (dev : udevice) (reg : Nat) (buff : List Nat)
    (len : Nat) (hv : da9063_reg_valid env reg = false) :
    da9063_read env dev reg buff len = (- ENODATA, buff, dev) := by
  unfold da9063_read
  simp [hv]

/-- The read operation on a valid address after a selector call that returned an
error. -/
theorem read_of_select_error (env : da9063_env) (dev : udevice) (reg : Nat) (buff : List Nat)
    (len : Nat) (r : Int) (dev1 : udevice) (hv : da9063_reg_valid env reg = true)
    (hs : da9063_select_page env dev reg = (r, dev1)) (hr : r < 0) :
    da9063_read env dev reg buff len = (r, buff, dev1) := by
  unfold da9063_read
  simp [hv, hs, hr]

/-- The read operation on a valid address after a selector call that returned an
offset. -/
theorem read_of_select_offset (env : da9063_env) (dev : udevice) (reg : Nat) (buff : List Nat)
    (len : Nat) (off : Nat) (dev1 : udevice) (hv : da9063_reg_valid env reg = true)
    (hs : da9063_select_page env dev reg = ((off : Int), dev1)) (hoff : off < 256) :
    da9063_read env dev reg buff len =
      (if (env.i2c dev1.bus (bus_op.read off len)).ret ≠ 0 then - EIO else 0,
       (env.i2c dev1.bus (bus_op.read off len)).data,
       { priv := dev1.priv,
         bus := dev1.bus ++ [⟨bus_op.read off len,
           (env.i2c dev1.bus (bus_op.read off len)).ret⟩] }) := by
  unfold da9063_read dm_i2c_read
  have h0 : ¬ ((off : Int) < 0) := by omega
  rw [if_neg (by simp [hv])]
  simp only [hs, h0, if_false, uint_of_int_small off hoff]
  split_ifs <;> rfl

/-- The three ways `da9063_select_page` can go: no bus traffic (cache hit or page
control offset), a failed page switch, a page switch that went through. -/
theorem select_page_cases (env : da9063_env) (dev : udevice) (reg : Nat) :
    ((reg_page dev.priv reg = dev.priv.cur_page ∨ reg_offset dev.priv reg = env.REG_PAGE_CON) ∧
      da9063_select_page env dev reg = (int_of_uint (reg_offset dev.priv reg), dev)) ∨
    (reg_page dev.priv reg ≠ dev.priv.cur_page ∧ reg_offset dev.priv reg ≠ env.REG_PAGE_CON ∧
      (page_switch_event env dev reg).ret < 0 ∧
      da9063_select_page env dev reg =
        ((page_switch_event env dev reg).ret,
         { priv := dev.priv, bus := dev.bus ++ [page_switch_event env dev reg] })) ∨
    (reg_page dev.priv reg ≠ dev.priv.cur_page ∧ reg_offset dev.priv reg ≠ env.REG_PAGE_CON ∧
      0 ≤ (page_switch_event env dev reg).ret ∧
      da9063_select_page env dev reg =
        (int_of_uint (reg_offset dev.priv reg),
         { priv := { dev.priv with cur_page := reg_page dev.priv reg },
           bus := dev.bus ++ [page_switch_event env dev reg] })) := by
  by_cases hp : reg_page dev.priv reg = dev.priv.cur_page
  · exact Or.inl ⟨Or.inl hp, select_page_hit env dev reg hp⟩
  · by_cases ho : reg_offset dev.priv reg = env.REG_PAGE_CON
    · exact Or.inl ⟨Or.inr ho, select_page_page_con env dev reg ho⟩
    · by_cases hr : (page_switch_event env dev reg).ret < 0
      · exact Or.inr (Or.inl ⟨hp, ho, hr, select_page_switch_fail env dev reg hp ho hr⟩)
      · exact Or.inr (Or.inr ⟨hp, ho, not_lt.mp hr,
          select_page_switch_ok env dev reg hp ho (not_lt.mp hr)⟩)

/-- A request served through `da9063_ops`, given what its selector call returned:
an error is passed on and nothing more is issued. -/
theorem ops_of_select_error (env : da9063_env) (dev : udevice) (a : pmic_req)
    (r : Int) (dev1 : udevice) (hreach : reaches_selector env a = true)
    (hs : da9063_select_page env dev a.reg = (r, dev1)) (hr : r < 0) :
    da9063_ops env dev a = (r, dev1) := by
  cases a with
  | read reg buff len =>
    simp only [da9063_ops]
    rw [read_of_select_error env dev reg buff len r dev1 hreach hs hr]
  | write reg buff =>
    simp only [da9063_ops]
    rw [write_of_select_error env dev reg buff r dev1 hs hr]

/-- A request served through `da9063_ops`, given what its selector call returned:
after an offset the data transaction follows, at that offset. -/
theorem ops_of_select_offset (env : da9063_env) (dev : udevice) (a : pmic_req)
    (dev1 : udevice) (hwf : dev.priv.wf) (hreach : reaches_selector env a = true)
    (hs : da9063_select_page env dev a.reg = (int_of_uint (reg_offset dev.priv a.reg), dev1)) :
    da9063_ops env dev a =
      (if (env.i2c dev1.bus (data_op dev.priv a)).ret ≠ 0 then - EIO else 0,
       { priv := dev1.priv,
         bus := dev1.bus ++ [⟨data_op dev.priv a, (env.i2c dev1.bus (data_op dev.priv a)).ret⟩] }) := by
  rw [int_of_uint_offset _ _ hwf] at hs
  have hlt : a.reg &&& dev.priv.offset_mask < 256 := reg_offset_lt dev.priv a.reg hwf
  cases a with
  | read reg buff len =>
    simp only [da9063_ops]
    rw [read_of_select_offset env dev reg buff len _ dev1 hreach hs hlt]
    rfl
  | write reg buff =>
    simp only [da9063_ops]
    rw [write_of_select_offset env dev reg buff _ dev1 hs hlt]
    rfl

/-- A read request for an address in a hole: refused, nothing happens. -/
theorem ops_of_unreached (env : da9063_env) (dev : udevice) (a : pmic_req)
    (hreach : reaches_selector env a = false) :
    da9063_ops env dev a = (- ENODATA, dev) := by
  cases a with
  | read reg buff len =>
    simp only [da9063_ops]
    rw [read_of_invalid env dev reg buff len hreach]
  | write reg buff => simp [reaches_selector] at hreach

/-- The private data after a request that returned 0: either the selector had
nothing to do and they are unchanged, or the page was switched to the page of
the address. -/
theorem ops_success_priv (env : da9063_env) (dev : udevice) (a : pmic_req)
    (hwf : dev.priv.wf) (h0 : (da9063_ops env dev a).1 = 0) :
    ((reg_page dev.priv a.reg = dev.priv.cur_page ∨
        reg_offset dev.priv a.reg = env.REG_PAGE_CON) ∧
      (da9063_ops env dev a).2.priv = dev.priv) ∨
    (reg_page dev.priv a.reg ≠ dev.priv.cur_page ∧
      reg_offset dev.priv a.reg ≠ env.REG_PAGE_CON ∧
      (da9063_ops env dev a).2.priv = { dev.priv with cur_page := reg_page dev.priv a.reg }) := by
  cases hreach : reaches_selector env a
  · rw [ops_of_unreached env dev a hreach] at h0
    have hne : (- ENODATA : Int) ≠ 0 := by decide
    exact absurd h0 hne
  · rcases select_page_cases env dev a.reg with ⟨hc, hs⟩ | ⟨_, _, hr, hs⟩ | ⟨hp, ho, _, hs⟩
    · left
      rw [ops_of_select_offset env dev a _ hwf hreach hs]
      exact ⟨hc, rfl⟩
    · rw [ops_of_select_error env dev a _ _ hreach hs hr] at h0
      simp only at h0
      omega
    · right
      rw [ops_of_select_offset env dev a _ hwf hreach hs]
      exact ⟨hp, ho, rfl⟩

/-- The data transaction of a request depends on the private data through the
offset mask only. -/
theorem data_op_congr (p q : da9063_priv) (a : pmic_req) (h : p.offset_mask = q.offset_mask) :
    data_op p a = data_op q a := by
  cases a <;> simp [data_op, h]

/-- A request in a state where the selector has nothing to do: the selector
leaves the device alone, and the request adds its data transaction only (nothing
at all for a read of an address in a hole). -/
theorem ops_without_switch (env : da9063_env) (dev : udevice) (a : pmic_req)
    (hwf : dev.priv.wf)
    (h : reg_page dev.priv a.reg = dev.priv.cur_page ∨
      reg_offset dev.priv a.reg = env.REG_PAGE_CON) :
    da9063_select_page env dev a.reg = (((a.reg &&& dev.priv.offset_mask : Nat) : Int), dev) ∧
    (da9063_ops env dev a).2.bus = dev.bus ++
      (if reaches_selector env a = true then
        [⟨data_op dev.priv a, (env.i2c dev.bus (data_op dev.priv a)).ret⟩]
       else []) := by
  have hs : da9063_select_page env dev a.reg = (int_of_uint (reg_offset dev.priv a.reg), dev) := by
    rcases h with h | h
    · exact select_page_hit env dev a.reg h
    · exact select_page_page_con env dev a.reg h
  refine ⟨by rw [hs, int_of_uint_offset _ _ hwf], ?_⟩
  cases hreach : reaches_selector env a
  · rw [ops_of_unreached env dev a hreach]
    simp
  · rw [ops_of_select_offset env dev a dev hwf hreach hs]
    simp

/-- A request that reaches the selector in a state where the page has to be
switched, on a bus that makes every transaction succeed: the page switch, then
the data transaction, and the page of the address is current afterwards. -/
theorem ops_with_switch (env : da9063_env) (dev : udevice) (a : pmic_req)
    (hwf : dev.priv.wf) (hok : bus_succeeds env) (hreach : reaches_selector env a = true)
    (hp : reg_page dev.priv a.reg ≠ dev.priv.cur_page)
    (ho : reg_offset dev.priv a.reg ≠ env.REG_PAGE_CON) :
    da9063_ops env dev a =
      (0, { priv := { dev.priv with cur_page := reg_page dev.priv a.reg },
            bus := dev.bus ++ [⟨page_switch_op env dev.priv a.reg, 0⟩, ⟨data_op dev.priv a, 0⟩] }) := by
  have hs := select_page_switch_ok env dev a.reg hp ho (by rw [hok])
  rw [ops_of_select_offset env dev a _ hwf hreach hs]
  simp [hok _ _, page_switch_op]

/-- A request that reaches the selector on a bus that makes every transaction
succeed, when the selector does not take the page control shortcut on a foreign
page: afterwards the page of the address is current and the masks are as
before. -/
theorem ops_makes_page_current (env : da9063_env) (dev : udevice) (a : pmic_req)
    (hwf : dev.priv.wf) (hok : bus_succeeds env) (hreach : reaches_selector env a = true)
    (h : reg_page dev.priv a.reg = dev.priv.cur_page ∨
      reg_offset dev.priv a.reg ≠ env.REG_PAGE_CON) :
    (da9063_ops env dev a).2.priv = { dev.priv with cur_page := reg_page dev.priv a.reg } := by
  by_cases hp : reg_page dev.priv a.reg = dev.priv.cur_page
  · rw [ops_of_select_offset env dev a dev hwf hreach (select_page_hit env dev a.reg hp), hp]
  · have ho : reg_offset dev.priv a.reg ≠ env.REG_PAGE_CON := by
      rcases h with h | h
      · exact absurd h hp
      · exact h
    rw [ops_with_switch env dev a hwf hok hreach hp ho]

/-- The private data after `da9063_write` are those the selector call left. -/
theorem write_priv_eq_select (env : da9063_env) (dev : udevice) (reg : Nat) (buff : List Nat) :
    (da9063_write env dev reg buff).2.priv = (da9063_select_page env dev reg).2.priv := by
  unfold da9063_write dm_i2c_write
  dsimp only
  split_ifs <;> rfl

/-- The private data after `da9063_read` are those the selector call left, or those
before the call when the address is in a hole. -/
theorem read_priv_eq_select (env : da9063_env) (dev : udevice) (reg : Nat) (buff : List Nat)
    (len : Nat) :
    (da9063_read env dev reg buff len).2.2.priv =
      (if da9063_reg_valid env reg = true then (da9063_select_page env dev reg).2.priv
       else dev.priv) := by
  unfold da9063_read dm_i2c_read
  dsimp only
  split_ifs <;> rfl

/-- The private data after a selector call: unchanged, or the page of the address
made current after a page switch that the bus did not fail. -/
theorem select_page_priv_cases (env : da9063_env) (dev : udevice) (reg : Nat) :
    (da9063_select_page env dev reg).2.priv = dev.priv ∨
    (reg_page dev.priv reg ≠ dev.priv.cur_page ∧ reg_offset dev.priv reg ≠ env.REG_PAGE_CON ∧
      0 ≤ (page_switch_event env dev reg).ret ∧
      (da9063_select_page env dev reg).2.priv =
        { dev.priv with cur_page := reg_page dev.priv reg }) := by
  rcases select_page_cases env dev reg with ⟨_, hs⟩ | ⟨_, _, _, hs⟩ | ⟨hp, ho, hr, hs⟩
  · left; rw [hs]
  · left; rw [hs]
  · right; rw [hs]; exact ⟨hp, ho, hr, rfl⟩

/-- The private data after a request served through `da9063_ops`: unchanged, or
the page of the address made current by the selector after a page switch that
the bus did not fail. -/
theorem ops_priv_cases (env : da9063_env) (dev : udevice) (a : pmic_req) :
    (da9063_ops env dev a).2.priv = dev.priv ∨
    (reaches_selector env a = true ∧
      reg_page dev.priv a.reg ≠ dev.priv.cur_page ∧
      reg_offset dev.priv a.reg ≠ env.REG_PAGE_CON ∧
      0 ≤ (page_switch_event env dev a.reg).ret ∧
      (da9063_ops env dev a).2.priv = { dev.priv with cur_page := reg_page dev.priv a.reg }) := by
  cases a with
  | read reg buff len =>
    simp only [da9063_ops, pmic_req.reg, reaches_selector]
    rw [read_priv_eq_select]
    cases hv : da9063_reg_valid env reg
    · left; simp
    · simp only [if_true]
      rcases select_page_priv_cases env dev reg with h | h
      · exact Or.inl h
      · exact Or.inr ⟨trivial, h⟩
  | write reg buff =>
    simp only [da9063_ops, pmic_req.reg, reaches_selector]
    rw [write_priv_eq_select]
    rcases select_page_priv_cases env dev reg with h | h
    · exact Or.inl h
    · exact Or.inr ⟨trivial, h⟩

/-- A value masked with `m` is unchanged by masking it with `m` again. -/
theorem and_mask_idem (n m : Nat) : (n &&& m) &&& m = n &&& m := by
  rw [Nat.and_assoc, Nat.and_self]

/-- Masking with `0x2` leaves 0 or 2. -/
theorem and_two_cases (n : Nat) : n &&& 2 = 0 ∨ n &&& 2 = 2 := by
  have hle : n &&& 2 ≤ 2 := Nat.and_le_right
  have hid := and_mask_idem n 2
  generalize n &&& 2 = x at hle hid
  interval_cases x
  · exact Or.inl rfl
  · exact absurd hid (by decide)
  · exact Or.inr rfl

/-- Under the page mask `0x2` the page of an address is 0 or 2. -/
theorem reg_page_probed_cases (priv : da9063_priv) (reg : Nat) (hm : priv.page_mask = 0x2) :
    reg_page priv reg = 0 ∨ reg_page priv reg = 2 := by
  unfold reg_page
  rw [hm]
  rcases and_two_cases (reg / 128) with h | h <;> rw [h]
  · exact Or.inl rfl
  · exact Or.inr rfl

/-- Serving one more request after a sequence. -/
theorem run_cons (env : da9063_env) (dev : udevice) (a : pmic_req) (reqs : List pmic_req) :
    da9063_run env dev (a :: reqs) = da9063_run env (da9063_ops env dev a).2 reqs := rfl

/-- A sequence of requests keeps the masks of the probed device, and keeps the
current page among the pages 0 and 2. -/
theorem run_keeps_probed_pages (env : da9063_env) (reqs : List pmic_req) :
    ∀ dev : udevice, dev.priv.page_mask = 0x2 → dev.priv.offset_mask = 0xff →
      (dev.priv.cur_page = 0 ∨ dev.priv.cur_page = 2) →
      (da9063_run env dev reqs).priv.page_mask = 0x2 ∧
      (da9063_run env dev reqs).priv.offset_mask = 0xff ∧
      ((da9063_run env dev reqs).priv.cur_page = 0 ∨
        (da9063_run env dev reqs).priv.cur_page = 2) := by
  induction reqs with
  | nil => intro dev hm ho hc; exact ⟨hm, ho, hc⟩
  | cons a rest ih =>
    intro dev hm ho hc
    rw [run_cons]
    rcases ops_priv_cases env dev a with h | ⟨_, _, _, _, h⟩
    · exact ih _ (by rw [h]; exact hm) (by rw [h]; exact ho) (by rw [h]; exact hc)
    · exact ih _ (by rw [h]; exact hm) (by rw [h]; exact ho)
        (by rw [h]; exact reg_page_probed_cases dev.priv a.reg hm)

/-- The page selected in the device after one more transaction. -/
theorem device_page_append (c : Nat) (history : List bus_event) (e : bus_event) :
    device_page c (history ++ [e]) = device_page_step c (device_page c history) e := by
  simp [device_page, List.foldl_append]

/-- A write at another offset than the page control offset does not select a page. -/
theorem device_page_step_other (c page offset : Nat) (bytes : List Nat) (r : Int)
    (h : offset ≠ c) : device_page_step c page ⟨bus_op.write offset bytes, r⟩ = page := by
  cases bytes <;> simp [device_page_step, h]

/-- A transaction that the bus failed with a negative code does not select a page. -/
theorem device_page_step_failed (c page : Nat) (op : bus_op) (r : Int) (h : r < 0) :
    device_page_step c page ⟨op, r⟩ = page := by
  cases op with
  | read offset len => rfl
  | write offset bytes =>
    cases bytes with
    | nil => rfl
    | cons b rest => simp [device_page_step, not_le.mpr h]

/-- The data transaction of a request does not select a page, unless the request
is a write that resolves to the page control offset. -/
theorem device_page_step_data (c page : Nat) (priv : da9063_priv) (a : pmic_req) (r : Int)
    (h : ∀ reg buff, a = pmic_req.write reg buff → reg &&& priv.offset_mask ≠ c) :
    device_page_step c page ⟨data_op priv a, r⟩ = page := by
  cases a with
  | read reg buff len => rfl
  | write reg buff => exact device_page_step_other c page _ buff r (h reg buff rfl)

/-- A request keeps the fields of the private data within the range of `u8` and
keeps the offset mask. -/
theorem ops_keeps_wf (env : da9063_env) (dev : udevice) (a : pmic_req) (hwf : dev.priv.wf) :
    (da9063_ops env dev a).2.priv.wf ∧
    (da9063_ops env dev a).2.priv.offset_mask = dev.priv.offset_mask := by
  rcases ops_priv_cases env dev a with h | ⟨_, _, _, _, h⟩
  · rw [h]; exact ⟨hwf, rfl⟩
  · rw [h]; exact ⟨⟨Nat.mod_lt _ (by decide), hwf.2.1, hwf.2.2⟩, rfl⟩

/-- One request keeps the cached page equal to the page selected in the device,
unless it is a write that resolves to the page control offset. -/
theorem ops_keeps_coherence (env : da9063_env) (dev : udevice) (a : pmic_req)
    (hwf : dev.priv.wf)
    (hcoh : device_page env.REG_PAGE_CON dev.bus = dev.priv.cur_page)
    (hno : ∀ reg buff, a = pmic_req.write reg buff →
      reg &&& dev.priv.offset_mask ≠ env.REG_PAGE_CON) :
    device_page env.REG_PAGE_CON (da9063_ops env dev a).2.bus =
      (da9063_ops env dev a).2.priv.cur_page := by
  cases hreach : reaches_selector env a
  · rw [ops_of_unreached env dev a hreach]
    exact hcoh
  · rcases select_page_cases env dev a.reg with ⟨_, hs⟩ | ⟨_, _, hr, hs⟩ | ⟨_, _, hr, hs⟩
    · rw [ops_of_select_offset env dev a _ hwf hreach hs]
      show device_page env.REG_PAGE_CON (dev.bus ++ [_]) = dev.priv.cur_page
      rw [device_page_append, device_page_step_data _ _ _ _ _ hno, hcoh]
    · rw [ops_of_select_error env dev a _ _ hreach hs hr]
      show device_page env.REG_PAGE_CON (dev.bus ++ [page_switch_event env dev a.reg]) =
        dev.priv.cur_page
      rw [device_page_append, device_page_step_failed _ _ _ _ hr, hcoh]
    · rw [ops_of_select_offset env dev a _ hwf hreach hs]
      show device_page env.REG_PAGE_CON
        ((dev.bus ++ [page_switch_event env dev a.reg]) ++ [_]) = reg_page dev.priv a.reg
      rw [device_page_append, device_page_step_data _ _ _ _ _ hno, device_page_append]
      simp [device_page_step, page_switch_event, page_switch_op] at hr ⊢
      intro h
      exact absurd hr (not_le.mpr h)

/-- A sequence of requests keeps the cached page equal to the page selected in
the device, unless one of them is a write that resolves to the page control
offset. -/
theorem run_keeps_coherence (env : da9063_env) (reqs : List pmic_req) :
    ∀ dev : udevice, dev.priv.wf →
      device_page env.REG_PAGE_CON dev.bus = dev.priv.cur_page →
      (∀ reg buff, pmic_req.write reg buff ∈ reqs →
        reg &&& dev.priv.offset_mask ≠ env.REG_PAGE_CON) →
      device_page env.REG_PAGE_CON (da9063_run env dev reqs).bus =
        (da9063_run env dev reqs).priv.cur_page := by
  induction reqs with
  | nil => intro dev _ hcoh _; exact hcoh
  | cons a rest ih =>
    intro dev hwf hcoh hno
    rw [run_cons]
    have hk := ops_keeps_wf env dev a hwf
    apply ih _ hk.1
    · exact ops_keeps_coherence env dev a hwf hcoh
        (fun reg buff h => hno reg buff (by rw [h]; exact List.mem_cons_self _ _))
    · intro reg buff hmem
      rw [hk.2]
      exact hno reg buff (List.mem_cons_of_mem _ hmem)

/-- Under the masks of `da9063_probe`, page and offset of an address below 512
give the address back. -/
theorem probed_page_offset_sum (reg : Nat) (h : reg < 512) :
    ((reg / 128) &&& 0x2) * 128 + (reg &&& 0xff) = reg := by
  have hm : reg &&& 0xff = reg % 256 := Nat.and_pow_two_sub_one_eq_mod reg 8
  rw [hm]
  have hq : reg / 128 = 0 ∨ reg / 128 = 1 ∨ reg / 128 = 2 ∨ reg / 128 = 3 := by omega
  have c0 : (0 &&& 0x2 : Nat) = 0 := by decide
  have c1 : (1 &&& 0x2 : Nat) = 0 := by decide
  have c2 : (2 &&& 0x2 : Nat) = 2 := by decide
  have c3 : (3 &&& 0x2 : Nat) = 2 := by decide
  rcases hq with hq | hq | hq | hq
  · rw [hq, c0]; omega
  · rw [hq, c1]; omega
  · rw [hq, c2]; omega
  · rw [hq, c3]; omega

/-! ## The page selector: failure, cache hit, page switch, page control offset -/

/-- C1: when `da9063_select_page` has to switch the page (the page of the
address is not the current one and its offset is not the page control offset)
and the bus fails the page-switch write, the private data after the call are
those before it, `da9063_select_page` returns the negative code of the bus, and
`da9063_write` and `da9063_read` return a negative code as well, keep the private
data, and issue nothing after the failed page switch (a read of an address in a
hole issues nothing at all): there is no data transaction. -/
theorem page_switch_failure_keeps_paging_state (env : da9063_env) (dev : udevice) (reg : Nat)
    (buff : List Nat) (len : Nat)
    (hp : reg_page dev.priv reg ≠ dev.priv.cur_page)
    (ho : reg_offset dev.priv reg ≠ env.REG_PAGE_CON)
    (hr : (page_switch_event env dev reg).ret < 0) :
    (da9063_select_page env dev reg).2.priv = dev.priv ∧
    (da9063_select_page env dev reg).1 = (page_switch_event env dev reg).ret ∧
    (da9063_select_page env dev reg).1 < 0 ∧
    (da9063_write env dev reg buff).1 < 0 ∧
    (da9063_write env dev reg buff).2.priv = dev.priv ∧
    (da9063_write env dev reg buff).2.bus = dev.bus ++ [page_switch_event env dev reg] ∧
    (da9063_read env dev reg buff len).1 < 0 ∧
    (da9063_read env dev reg buff len).2.2.priv = dev.priv ∧
    (da9063_read env dev reg buff len).2.2.bus =
      (if da9063_reg_valid env reg = true then dev.bus ++ [page_switch_event env dev reg]
       else dev.bus) := by
  have hs := select_page_switch_fail env dev reg hp ho hr
  have hw := write_of_select_error env dev reg buff _ _ hs hr
  refine ⟨by rw [hs], by rw [hs]; rfl, by rw [hs]; exact hr, by rw [hw]; exact hr,
    by rw [hw], by rw [hw]; rfl, ?_, ?_, ?_⟩
  · cases hv : da9063_reg_valid env reg
    · rw [read_of_invalid env dev reg buff len hv]
      show - ENODATA < 0
      decide
    · rw [read_of_select_error env dev reg buff len _ _ hv hs hr]
      exact hr
  · cases hv : da9063_reg_valid env reg
    · rw [read_of_invalid env dev reg buff len hv]
    · rw [read_of_select_error env dev reg buff len _ _ hv hs hr]
  · cases hv : da9063_reg_valid env reg
    · rw [read_of_invalid env dev reg buff len hv]
      simp
    · rw [read_of_select_error env dev reg buff len _ _ hv hs hr]
      simp [page_switch_event, page_switch_op]

/-- Witness of C1: a probed device on a failing bus, address 260. -/
theorem page_switch_failure_keeps_paging_state_witness :
    reg_page dev_probed.priv 260 ≠ dev_probed.priv.cur_page ∧
    reg_offset dev_probed.priv 260 ≠ env_fail.REG_PAGE_CON ∧
    (page_switch_event env_fail dev_probed 260).ret < 0 ∧
    (da9063_select_page env_fail dev_probed 260).2.priv = dev_probed.priv ∧
    (da9063_write env_fail dev_probed 260 [7]).2.bus
      = dev_probed.bus ++ [page_switch_event env_fail dev_probed 260] :=
  ⟨by decide, by decide, by decide,
   (page_switch_failure_keeps_paging_state env_fail dev_probed 260 [7] 1
      (by decide) (by decide) (by decide)).1,
   (page_switch_failure_keeps_paging_state env_fail dev_probed 260 [7] 1
      (by decide) (by decide) (by decide)).2.2.2.2.2.1⟩

/-- C2: cache hit.  When the computed page `(reg / 128) & page_mask` is the
current page, `da9063_select_page` returns the offset `reg & offset_mask` and the
device afterwards is the device before: no bus transaction was issued and the
private data are unchanged. -/
theorem select_page_cache_hit (env : da9063_env) (dev : udevice) (reg : Nat)
    (hwf : dev.priv.wf)
    (hhit : (reg / 128) &&& dev.priv.page_mask = dev.priv.cur_page) :
    da9063_select_page env dev reg = (((reg &&& dev.priv.offset_mask : Nat) : Int), dev) := by
  rw [select_page_hit env dev reg (by rw [reg_page_of_wf _ _ hwf]; exact hhit),
    int_of_uint_offset _ _ hwf]

/-- Witness of C2: address 130 on a probed device (page 0 is current). -/
theorem select_page_cache_hit_witness :
    dev_probed.priv.wf ∧ (130 / 128) &&& dev_probed.priv.page_mask = dev_probed.priv.cur_page ∧
    da9063_select_page env_ok dev_probed 130 = (130, dev_probed) :=
  ⟨by decide, by decide, select_page_cache_hit env_ok dev_probed 130 (by decide) (by decide)⟩

/-- C3: page switch.  When the computed page differs from the current page and
the offset is not the page control offset, `da9063_select_page` issues exactly
one transaction: a write of the single byte `(reg / 128) & page_mask` at the
offset `DA9063_REG_PAGE_CON`.  If the bus does not fail it, the current page
afterwards is the computed page, the masks are unchanged, and the function
returns `reg & offset_mask`. -/
theorem select_page_switch (env : da9063_env) (dev : udevice) (reg : Nat)
    (hwf : dev.priv.wf)
    (hp : (reg / 128) &&& dev.priv.page_mask ≠ dev.priv.cur_page)
    (ho : reg &&& dev.priv.offset_mask ≠ env.REG_PAGE_CON) :
    (da9063_select_page env dev reg).2.bus =
      dev.bus ++ [⟨bus_op.write env.REG_PAGE_CON [(reg / 128) &&& dev.priv.page_mask],
        (env.i2c dev.bus
          (bus_op.write env.REG_PAGE_CON [(reg / 128) &&& dev.priv.page_mask])).ret⟩] ∧
    (0 ≤ (env.i2c dev.bus
          (bus_op.write env.REG_PAGE_CON [(reg / 128) &&& dev.priv.page_mask])).ret →
      (da9063_select_page env dev reg).2.priv =
        { dev.priv with cur_page := (reg / 128) &&& dev.priv.page_mask } ∧
      (da9063_select_page env dev reg).1 = ((reg &&& dev.priv.offset_mask : Nat) : Int)) := by
  have hpg := reg_page_of_wf dev.priv reg hwf
  have hp1 : reg_page dev.priv reg ≠ dev.priv.cur_page := by rw [hpg]; exact hp
  have ho1 : reg_offset dev.priv reg ≠ env.REG_PAGE_CON := ho
  constructor
  · by_cases hr : (env.i2c dev.bus
        (bus_op.write env.REG_PAGE_CON [reg_page dev.priv reg])).ret < 0
    · rw [select_page_switch_fail env dev reg hp1 ho1 hr, hpg]
    · rw [select_page_switch_ok env dev reg hp1 ho1 (not_lt.mp hr), hpg]
  · intro hr
    rw [← hpg] at hr ⊢
    rw [select_page_switch_ok env dev reg hp1 ho1 hr, int_of_uint_offset _ _ hwf]
    exact ⟨rfl, rfl⟩

/-- Witness of C3: address 260 on a probed device needs page 2. -/
theorem select_page_switch_witness :
    dev_probed.priv.wf ∧ (260 / 128) &&& dev_probed.priv.page_mask ≠ dev_probed.priv.cur_page ∧
    260 &&& dev_probed.priv.offset_mask ≠ env_ok.REG_PAGE_CON ∧
    (da9063_select_page env_ok dev_probed 260).2.bus = [⟨bus_op.write 0 [2], 0⟩] :=
  ⟨by decide, by decide, by decide,
   (select_page_switch env_ok dev_probed 260 (by decide) (by decide) (by decide)).1⟩

/-- C4: an address whose in-page offset `reg & offset_mask` is the page control
offset never causes a page switch, whatever the current page.
`da9063_select_page` returns that offset and leaves the device as it was;
`da9063_write` issues its data write at that offset and nothing else;
`da9063_read` of a valid such address issues its data read at that offset and
nothing else; the private data, the current page among them, stay the same. -/
theorem page_con_access_never_switches (env : da9063_env) (dev : udevice) (reg : Nat)
    (buff : List Nat) (len : Nat)
    (hwf : dev.priv.wf)
    (ho : reg &&& dev.priv.offset_mask = env.REG_PAGE_CON) :
    da9063_select_page env dev reg = ((env.REG_PAGE_CON : Int), dev) ∧
    (da9063_write env dev reg buff).2 =
      { priv := dev.priv,
        bus := dev.bus ++ [⟨bus_op.write env.REG_PAGE_CON buff,
          (env.i2c dev.bus (bus_op.write env.REG_PAGE_CON buff)).ret⟩] } ∧
    (da9063_reg_valid env reg = true →
      (da9063_read env dev reg buff len).2.2 =
        { priv := dev.priv,
          bus := dev.bus ++ [⟨bus_op.read env.REG_PAGE_CON len,
            (env.i2c dev.bus (bus_op.read env.REG_PAGE_CON len)).ret⟩] }) := by
  have hlt : env.REG_PAGE_CON < 256 := by
    have := reg_offset_lt dev.priv reg hwf
    unfold reg_offset at this
    omega
  have hs : da9063_select_page env dev reg = ((env.REG_PAGE_CON : Int), dev) := by
    rw [select_page_page_con env dev reg ho, int_of_uint_offset _ _ hwf, ho]
  refine ⟨hs, ?_, ?_⟩
  · rw [write_of_select_offset env dev reg buff _ _ hs hlt]
  · intro hv
    rw [read_of_select_offset env dev reg buff len _ _ hv hs hlt]

/-- Witness of C4: address 256 (page 2, offset 0) on a probed device whose
current page is 0, with the page control register at offset 0. -/
theorem page_con_access_never_switches_witness :
    dev_probed.priv.wf ∧ 256 &&& dev_probed.priv.offset_mask = env_ok.REG_PAGE_CON ∧
    da9063_select_page env_ok dev_probed 256 = (0, dev_probed) :=
  ⟨by decide, by decide,
   (page_con_access_never_switches env_ok dev_probed 256 [7] 1 (by decide) (by decide)).1⟩

/-! ## Register validity and the read/write asymmetry -/

/-- C5: a read of an address inside a hole of the table returns `-ENODATA`,
which is not the I/O error code, and leaves the buffer and the device as they
were: no bus transaction (neither page switch nor data read) and no change of
the private data. -/
theorem read_in_hole_is_no_data (env : da9063_env) (dev : udevice) (reg : Nat)
    (buff : List Nat) (len : Nat) (hole : da9063_reg_hole)
    (hm : hole ∈ env.reg_holes) (h1 : hole.first ≤ reg) (h2 : reg ≤ hole.last) :
    da9063_read env dev reg buff len = (- ENODATA, buff, dev) ∧ - ENODATA ≠ - EIO := by
  have hv : da9063_reg_valid env reg = false :=
    (reg_valid_loop_false_iff reg env.reg_holes).mpr ⟨hole, hm, h1, h2⟩
  exact ⟨read_of_invalid env dev reg buff len hv, by decide⟩

/-- Witness of C5: address `0x3c` lies in the hole from `0x3a` to `0x3f`. -/
theorem read_in_hole_is_no_data_witness :
    da9063_read env_ok dev_probed 0x3c [1, 2] 2 = (- ENODATA, [1, 2], dev_probed) ∧
    - ENODATA ≠ - EIO :=
  read_in_hole_is_no_data env_ok dev_probed 0x3c [1, 2] 2 ⟨0x3a, 0x3f⟩
    (by decide) (by decide) (by decide)

/-- C6: `da9063_reg_valid` is false exactly at the addresses that lie in some
hole of the table, both bounds included.  So it is false at the first and at
the last address of each hole (a range with first at most last), and true at
the address just below or just above a hole when no hole of the table contains
that address. -/
theorem reg_valid_false_iff_in_hole (env : da9063_env) (reg : Nat) :
    (da9063_reg_valid env reg = false ↔
      ∃ hole ∈ env.reg_holes, hole.first ≤ reg ∧ reg ≤ hole.last) ∧
    (∀ hole ∈ env.reg_holes, hole.first ≤ hole.last →
      da9063_reg_valid env hole.first = false ∧ da9063_reg_valid env hole.last = false) ∧
    (∀ hole ∈ env.reg_holes,
      (¬ ∃ other ∈ env.reg_holes, other.first ≤ hole.last + 1 ∧ hole.last + 1 ≤ other.last) →
      da9063_reg_valid env (hole.last + 1) = true) ∧
    (∀ hole ∈ env.reg_holes, 0 < hole.first →
      (¬ ∃ other ∈ env.reg_holes, other.first ≤ hole.first - 1 ∧ hole.first - 1 ≤ other.last) →
      da9063_reg_valid env (hole.first - 1) = true) := by
  refine ⟨reg_valid_loop_false_iff reg env.reg_holes, ?_, ?_, ?_⟩
  · intro hole hm hle
    exact ⟨(reg_valid_loop_false_iff _ _).mpr ⟨hole, hm, le_refl _, hle⟩,
      (reg_valid_loop_false_iff _ _).mpr ⟨hole, hm, hle, le_refl _⟩⟩
  · intro hole _ hno
    cases hv : da9063_reg_valid env (hole.last + 1)
    · exact absurd ((reg_valid_loop_false_iff _ _).mp hv) hno
    · rfl
  · intro hole _ _ hno
    cases hv : da9063_reg_valid env (hole.first - 1)
    · exact absurd ((reg_valid_loop_false_iff _ _).mp hv) hno
    · rfl

/-- C7: `da9063_write` does not depend on the hole table: with any other table,
the empty one included, it gives the same return code and the same device
afterwards (bus transactions and private data).  On a bus that makes every
transaction succeed, a write to an address inside a hole returns 0 and ends
with the data write of the payload at the offset `reg & offset_mask`, after
whatever the page selector issued, while a read of the same address returns
`-ENODATA` and issues nothing. -/
theorem write_never_consults_holes (env : da9063_env) (dev : udevice) (reg : Nat)
    (buff : List Nat) (len : Nat) :
    (∀ holes : List da9063_reg_hole,
      da9063_write { env with reg_holes := holes } dev reg buff = da9063_write env dev reg buff) ∧
    da9063_write { env with reg_holes := [] } dev reg buff = da9063_write env dev reg buff ∧
    (dev.priv.wf → bus_succeeds env →
      (∃ hole ∈ env.reg_holes, hole.first ≤ reg ∧ reg ≤ hole.last) →
      (da9063_write env dev reg buff).1 = 0 ∧
      (da9063_write env dev reg buff).2.bus =
        (da9063_select_page env dev reg).2.bus ++
          [⟨bus_op.write (reg &&& dev.priv.offset_mask) buff, 0⟩] ∧
      da9063_read env dev reg buff len = (- ENODATA, buff, dev)) := by
  refine ⟨fun _ => rfl, rfl, ?_⟩
  intro hwf hok hin
  have hv : da9063_reg_valid env reg = false := (reg_valid_loop_false_iff reg env.reg_holes).mpr hin
  have hlt := reg_offset_lt dev.priv reg hwf
  have hs : da9063_select_page env dev reg =
      (((reg &&& dev.priv.offset_mask : Nat) : Int), (da9063_select_page env dev reg).2) := by
    by_cases hp : reg_page dev.priv reg = dev.priv.cur_page
    · rw [select_page_hit env dev reg hp, int_of_uint_offset _ _ hwf]
    · by_cases ho : reg_offset dev.priv reg = env.REG_PAGE_CON
      · rw [select_page_page_con env dev reg ho, int_of_uint_offset _ _ hwf]
      · rw [select_page_switch_ok env dev reg hp ho (by rw [hok]), int_of_uint_offset _ _ hwf]
  refine ⟨?_, ?_, read_of_invalid env dev reg buff len hv⟩
  · rw [write_of_select_offset env dev reg buff _ _ hs hlt]
    simp [hok _ _]
  · rw [write_of_select_offset env dev reg buff _ _ hs hlt]
    simp [hok _ _]

/-- Instance of C7: on the sample configuration, address `0xc1` lies in a hole;
the write goes through at offset `0xc1`, the read is refused. -/
theorem write_never_consults_holes_witness :
    (da9063_write env_ok dev_probed 0xc1 [9]).1 = 0 ∧
    (da9063_write env_ok dev_probed 0xc1 [9]).2.bus =
      (da9063_select_page env_ok dev_probed 0xc1).2.bus ++ [⟨bus_op.write (0xc1 &&& 0xff) [9], 0⟩] ∧
    da9063_read env_ok dev_probed 0xc1 [9] 1 = (- ENODATA, [9], dev_probed) :=
  (write_never_consults_holes env_ok dev_probed 0xc1 [9] 1).2.2 (by decide)
    (fun _ op => by cases op <;> rfl) ⟨⟨0xc0, 0xff⟩, by decide, by decide, by decide⟩

/-! ## Sequences of accesses -/

/-- C8, the claim as stated fails: on a probed device (current page 0, page
control register at offset 0, working bus) the addresses 256 and 257 have the
same quotient by 128; the write to 256 succeeds without a page switch, because
256 resolves to the page control offset, and leaves page 0 current; the
following access to 257 then issues the page switch to page 2. -/
theorem same_page_second_access_switches :
    256 / 128 = 257 / 128 ∧
    da9063_ops env_ok dev_probed (pmic_req.write 256 [7])
      = (0, ⟨priv_probed, [⟨bus_op.write 0 [7], 0⟩]⟩) ∧
    (da9063_select_page env_ok
        (da9063_ops env_ok dev_probed (pmic_req.write 256 [7])).2 257).2.bus
      = [⟨bus_op.write 0 [7], 0⟩, ⟨bus_op.write 0 [2], 0⟩] ∧
    (da9063_run env_ok dev_probed [pmic_req.write 256 [7], pmic_req.write 257 [9]]).bus
      = [⟨bus_op.write 0 [7], 0⟩, ⟨bus_op.write 0 [2], 0⟩, ⟨bus_op.write 1 [9], 0⟩] := by
  decide

/-- C8, amended: let the addresses of two requests have the same quotient by
128, let the first request return 0, and let the first request not have taken
the page control shortcut on a foreign page (its page was current, or its
offset is not the page control offset), or let the second address resolve to
the page control offset.  Then the selector call of the second request issues
no transaction and returns the offset, and the second request adds to the bus
its data transaction only (nothing for a read of an address in a hole). -/
theorem same_page_second_access_no_switch (env : da9063_env) (dev : udevice)
    (a a' : pmic_req) (hwf : dev.priv.wf)
    (hsame : a.reg / 128 = a'.reg / 128)
    (hfirst : (da9063_ops env dev a).1 = 0)
    (hsel : (a.reg / 128) &&& dev.priv.page_mask = dev.priv.cur_page ∨
      a.reg &&& dev.priv.offset_mask ≠ env.REG_PAGE_CON ∨
      a'.reg &&& dev.priv.offset_mask = env.REG_PAGE_CON) :
    da9063_select_page env (da9063_ops env dev a).2 a'.reg =
      (((a'.reg &&& dev.priv.offset_mask : Nat) : Int), (da9063_ops env dev a).2) ∧
    (da9063_run env dev [a, a']).bus = (da9063_run env dev [a]).bus ++
      (if reaches_selector env a' = true then
        [⟨data_op dev.priv a',
          (env.i2c (da9063_run env dev [a]).bus (data_op dev.priv a')).ret⟩]
       else []) := by
  have hpage : reg_page dev.priv a'.reg = reg_page dev.priv a.reg := by
    unfold reg_page; rw [hsame]
  rw [← reg_page_of_wf dev.priv a.reg hwf] at hsel
  show _ ∧ (da9063_ops env (da9063_ops env dev a).2 a').2.bus = (da9063_ops env dev a).2.bus ++ _
  have key : ∀ dev1 : udevice, dev1.priv.wf → dev1.priv.offset_mask = dev.priv.offset_mask →
      (reg_page dev1.priv a'.reg = dev1.priv.cur_page ∨
        reg_offset dev1.priv a'.reg = env.REG_PAGE_CON) →
      da9063_select_page env dev1 a'.reg =
        (((a'.reg &&& dev.priv.offset_mask : Nat) : Int), dev1) ∧
      (da9063_ops env dev1 a').2.bus = dev1.bus ++
        (if reaches_selector env a' = true then
          [⟨data_op dev.priv a', (env.i2c dev1.bus (data_op dev.priv a')).ret⟩]
         else []) := by
    intro dev1 hwf1 hom h1
    have := ops_without_switch env dev1 a' hwf1 h1
    rw [data_op_congr dev1.priv dev.priv a' hom, hom] at this
    exact this
  rcases ops_success_priv env dev a hwf hfirst with ⟨hc, hpr⟩ | ⟨hp, ho, hpr⟩
  · apply key
    · rw [hpr]; exact hwf
    · rw [hpr]
    · rw [hpr]
      rcases hsel with h | h | h
      · exact Or.inl (by rw [hpage]; exact h)
      · rcases hc with hc | hc
        · exact Or.inl (by rw [hpage]; exact hc)
        · exact absurd hc h
      · exact Or.inr h
  · apply key
    · rw [hpr]
      exact ⟨Nat.mod_lt _ (by decide), hwf.2.1, hwf.2.2⟩
    · rw [hpr]
    · rw [hpr]
      exact Or.inl hpage

/-- Witness of C8 amended: a write to 260 (page 2, offset 4) and then a read of
address 300 (same quotient by 128) on a probed device. -/
theorem same_page_second_access_no_switch_witness :
    da9063_select_page env_ok (da9063_ops env_ok dev_probed (pmic_req.write 260 [7])).2 300 =
      (((300 &&& 0xff : Nat) : Int), (da9063_ops env_ok dev_probed (pmic_req.write 260 [7])).2) :=
  (same_page_second_access_no_switch env_ok dev_probed (pmic_req.write 260 [7])
    (pmic_req.read 300 [0] 1) (by decide) (by decide) (by decide) (Or.inr (Or.inl (by decide)))).1

/-- C9, the claim as stated fails: on a probed device (current page 0, page
control register at offset 0, working bus) the addresses 1 and 256 lie on
different pages (quotients by 128 are 0 and 2, computed pages 0 and 2), yet
accessing 1 and then 256 issues no page switch at all: the bus sees the two
data writes only, and page 0 stays current.  Likewise 1 and 129 have different
quotients by 128 and need no page switch, since the page mask `0x2` gives both
the computed page 0. -/
theorem different_pages_without_switch :
    1 / 128 ≠ 256 / 128 ∧
    reg_page dev_probed.priv 1 ≠ reg_page dev_probed.priv 256 ∧
    bus_succeeds env_ok ∧
    da9063_run env_ok dev_probed [pmic_req.write 1 [7], pmic_req.write 256 [9]]
      = ⟨priv_probed, [⟨bus_op.write 1 [7], 0⟩, ⟨bus_op.write 0 [9], 0⟩]⟩ ∧
    1 / 128 ≠ 129 / 128 ∧
    da9063_run env_ok dev_probed [pmic_req.write 1 [7], pmic_req.write 129 [9]]
      = ⟨priv_probed, [⟨bus_op.write 1 [7], 0⟩, ⟨bus_op.write 129 [9], 0⟩]⟩ :=
  ⟨by decide, by decide, fun _ op => by cases op <;> rfl, by decide, by decide, by decide⟩

/-- C9, amended: on a bus that makes every transaction succeed, let three
requests reach the page selector (writes, or reads of valid addresses); let the
first leave its page current (its page was current, or its offset is not the
page control offset); let the computed page `(reg / 128) & page_mask` of the
second differ from that of the first, and that of the third from that of the
second; and let neither the second nor the third resolve to the page control
offset.  Then the second request adds to the bus exactly one page switch,
carrying its page, followed by its data transaction, and the third request
adds exactly one more page switch, carrying its page, followed by its data
transaction. -/
theorem page_change_issues_one_switch (env : da9063_env) (dev : udevice)
    (a b c : pmic_req) (hwf : dev.priv.wf) (hok : bus_succeeds env)
    (ha : reaches_selector env a = true) (hb : reaches_selector env b = true)
    (hc : reaches_selector env c = true)
    (hA : (a.reg / 128) &&& dev.priv.page_mask = dev.priv.cur_page ∨
      a.reg &&& dev.priv.offset_mask ≠ env.REG_PAGE_CON)
    (hBp : (b.reg / 128) &&& dev.priv.page_mask ≠ (a.reg / 128) &&& dev.priv.page_mask)
    (hBo : b.reg &&& dev.priv.offset_mask ≠ env.REG_PAGE_CON)
    (hCp : (c.reg / 128) &&& dev.priv.page_mask ≠ (b.reg / 128) &&& dev.priv.page_mask)
    (hCo : c.reg &&& dev.priv.offset_mask ≠ env.REG_PAGE_CON) :
    (da9063_run env dev [a, b]).bus = (da9063_run env dev [a]).bus ++
      [⟨bus_op.write env.REG_PAGE_CON [(b.reg / 128) &&& dev.priv.page_mask], 0⟩,
       ⟨data_op dev.priv b, 0⟩] ∧
    (da9063_run env dev [a, b]).priv.cur_page = (b.reg / 128) &&& dev.priv.page_mask ∧
    (da9063_run env dev [a, b, c]).bus = (da9063_run env dev [a, b]).bus ++
      [⟨bus_op.write env.REG_PAGE_CON [(c.reg / 128) &&& dev.priv.page_mask], 0⟩,
       ⟨data_op dev.priv c, 0⟩] ∧
    (da9063_run env dev [a, b, c]).priv.cur_page = (c.reg / 128) &&& dev.priv.page_mask := by
  have hpa := reg_page_of_wf dev.priv a.reg hwf
  have hpb := reg_page_of_wf dev.priv b.reg hwf
  have hpc := reg_page_of_wf dev.priv c.reg hwf
  rw [← hpa] at hA
  rw [← hpa, ← hpb] at hBp
  rw [← hpb, ← hpc] at hCp
  rw [← hpb, ← hpc]
  -- the device after the first request
  have h1 := ops_makes_page_current env dev a hwf hok ha hA
  have e1 : da9063_run env dev [a] = (da9063_ops env dev a).2 := rfl
  have e2 : da9063_run env dev [a, b] = (da9063_ops env (da9063_ops env dev a).2 b).2 := rfl
  have e3 : da9063_run env dev [a, b, c] =
      (da9063_ops env (da9063_ops env (da9063_ops env dev a).2 b).2 c).2 := rfl
  rw [e1, e2, e3]
  generalize (da9063_ops env dev a).2 = dev1 at h1 ⊢
  obtain ⟨priv1, bus1⟩ := dev1
  simp only at h1
  subst h1
  have hwf1 : (udevice.mk { dev.priv with cur_page := reg_page dev.priv a.reg } bus1).priv.wf :=
    ⟨Nat.mod_lt _ (by decide), hwf.2.1, hwf.2.2⟩
  have h2 := ops_with_switch env ⟨{ dev.priv with cur_page := reg_page dev.priv a.reg }, bus1⟩ b
    hwf1 hok hb hBp hBo
  rw [h2]
  have hwf2 : (udevice.mk { dev.priv with cur_page := reg_page dev.priv b.reg }
      (bus1 ++ [⟨page_switch_op env dev.priv b.reg, 0⟩, ⟨data_op dev.priv b, 0⟩])).priv.wf :=
    ⟨Nat.mod_lt _ (by decide), hwf.2.1, hwf.2.2⟩
  have h3 := ops_with_switch env ⟨{ dev.priv with cur_page := reg_page dev.priv b.reg },
      bus1 ++ [⟨page_switch_op env dev.priv b.reg, 0⟩, ⟨data_op dev.priv b, 0⟩]⟩ c
    hwf2 hok hc hCp hCo
  refine ⟨rfl, rfl, ?_, ?_⟩
  · exact congrArg (fun r => r.2.bus) h3
  · exact congrArg (fun r => r.2.priv.cur_page) h3

/-- Witness of C9 amended: a device that tells eight pages apart; a write to
address 1 (page 0), a write to 129 (page 1), a read of 257 (page 2). -/
theorem page_change_issues_one_switch_witness :
    (da9063_run env_ok dev_wide [pmic_req.write 1 [7], pmic_req.write 129 [8]]).bus =
      (da9063_run env_ok dev_wide [pmic_req.write 1 [7]]).bus ++
        [⟨bus_op.write 0 [1], 0⟩, ⟨bus_op.write 1 [8], 0⟩] ∧
    (da9063_run env_ok dev_wide
        [pmic_req.write 1 [7], pmic_req.write 129 [8], pmic_req.read 257 [0] 1]).bus =
      (da9063_run env_ok dev_wide [pmic_req.write 1 [7], pmic_req.write 129 [8]]).bus ++
        [⟨bus_op.write 0 [2], 0⟩, ⟨bus_op.read 1 1, 0⟩] :=
  have h := page_change_issues_one_switch env_ok dev_wide (pmic_req.write 1 [7])
    (pmic_req.write 129 [8]) (pmic_req.read 257 [0] 1) (by decide)
    (fun _ op => by cases op <;> rfl) (by decide) (by decide) (by decide)
    (Or.inl (by decide)) (by decide) (by decide) (by decide) (by decide)
  ⟨h.1, h.2.2.1⟩

/-! ## Reads of valid addresses -/

/-- C10, the claim as stated fails: on a probed device whose bus fails every
transaction, address 260 lies outside every hole, and its read issues the page
switch to page 2, gets the error of the bus for it, and issues no data
transaction. -/
theorem valid_read_without_data_transaction :
    da9063_reg_valid env_fail 260 = true ∧
    da9063_read env_fail dev_probed 260 [0] 1
      = (-121, [0], ⟨priv_probed, [⟨bus_op.write 0 [2], -121⟩]⟩) := by
  decide

/-- C10, amended: for an address outside every hole, if the page-switch write
(when the selector needs one) is not failed by the bus, `da9063_read` issues
exactly one data transaction, a bus read at the offset `reg & offset_mask`, as
the last transaction of the call; before it the call issues either nothing or
the one page switch.  If the bus fails the needed page-switch write, the call
issues that page switch and no data transaction. -/
theorem valid_read_one_data_transaction (env : da9063_env) (dev : udevice) (reg : Nat)
    (buff : List Nat) (len : Nat) (hwf : dev.priv.wf)
    (hv : da9063_reg_valid env reg = true) :
    ((reg_page dev.priv reg ≠ dev.priv.cur_page → reg_offset dev.priv reg ≠ env.REG_PAGE_CON →
        0 ≤ (page_switch_event env dev reg).ret) →
      ((da9063_read env dev reg buff len).2.2.bus =
          dev.bus ++ [⟨bus_op.read (reg &&& dev.priv.offset_mask) len,
            (env.i2c dev.bus (bus_op.read (reg &&& dev.priv.offset_mask) len)).ret⟩] ∨
        (da9063_read env dev reg buff len).2.2.bus =
          dev.bus ++ [page_switch_event env dev reg,
            ⟨bus_op.read (reg &&& dev.priv.offset_mask) len,
              (env.i2c (dev.bus ++ [page_switch_event env dev reg])
                (bus_op.read (reg &&& dev.priv.offset_mask) len)).ret⟩])) ∧
    (reg_page dev.priv reg ≠ dev.priv.cur_page → reg_offset dev.priv reg ≠ env.REG_PAGE_CON →
      (page_switch_event env dev reg).ret < 0 →
      (da9063_read env dev reg buff len).2.2.bus = dev.bus ++ [page_switch_event env dev reg]) := by
  have hlt := reg_offset_lt dev.priv reg hwf
  have hio := int_of_uint_offset dev.priv reg hwf
  constructor
  · intro hsw
    rcases select_page_cases env dev reg with ⟨_, hs⟩ | ⟨hp, ho, hr, _⟩ | ⟨_, _, _, hs⟩
    · left
      rw [hio] at hs
      rw [read_of_select_offset env dev reg buff len _ _ hv hs hlt]
    · exact absurd (hsw hp ho) (not_le.mpr hr)
    · right
      rw [hio] at hs
      rw [read_of_select_offset env dev reg buff len _ _ hv hs hlt]
      simp
  · intro hp ho hr
    rw [read_of_select_error env dev reg buff len _ _ hv
      (select_page_switch_fail env dev reg hp ho hr) hr]
    rfl

/-- Witness of C10 amended: the read of address 260 on a probed device with a
working bus issues the page switch to page 2 and then the data read at offset 4. -/
theorem valid_read_one_data_transaction_witness :
    dev_probed.priv.wf ∧ da9063_reg_valid env_ok 260 = true ∧
    ((da9063_read env_ok dev_probed 260 [0] 1).2.2.bus =
        dev_probed.bus ++ [⟨bus_op.read (260 &&& dev_probed.priv.offset_mask) 1,
          (env_ok.i2c dev_probed.bus
            (bus_op.read (260 &&& dev_probed.priv.offset_mask) 1)).ret⟩] ∨
      (da9063_read env_ok dev_probed 260 [0] 1).2.2.bus =
        dev_probed.bus ++ [page_switch_event env_ok dev_probed 260,
          ⟨bus_op.read (260 &&& dev_probed.priv.offset_mask) 1,
            (env_ok.i2c (dev_probed.bus ++ [page_switch_event env_ok dev_probed 260])
              (bus_op.read (260 &&& dev_probed.priv.offset_mask) 1)).ret⟩]) :=
  ⟨by decide, by decide,
   (valid_read_one_data_transaction env_ok dev_probed 260 [0] 1 (by decide) (by decide)).1
     (fun _ _ => by decide)⟩

/-! ## The scenario of the probed device -/

/-- C11: on a device just probed (masks `0x2` and `0xff`) whose current page is 0,
with a bus that makes every transaction succeed and with 130 and 260 outside
every hole: the read of address 130 returns 0 and issues exactly one
transaction, the data read at offset 130, and no page switch; the following
read of address 260 returns 0 and issues the one-byte write of the value 2 at
the page control offset and then the data read at offset 4, and the current
page is 2 afterwards.  (The page control offset is a constant of a header; the
scenario needs it to differ from 4, the offset of address 260.) -/
theorem probe_scenario_reads (env : da9063_env) (dev0 : udevice) (buff buff' : List Nat)
    (len len' : Nat) (h0 : dev0.priv.cur_page = 0) (hok : bus_succeeds env)
    (hv1 : da9063_reg_valid env 130 = true) (hv2 : da9063_reg_valid env 260 = true)
    (hpc : env.REG_PAGE_CON ≠ 4) :
    (da9063_read env (da9063_probe dev0).2 130 buff len).1 = 0 ∧
    (da9063_read env (da9063_probe dev0).2 130 buff len).2.2 =
      { priv := ⟨0, 0x2, 0xff⟩, bus := dev0.bus ++ [⟨bus_op.read 130 len, 0⟩] } ∧
    (da9063_read env (da9063_read env (da9063_probe dev0).2 130 buff len).2.2
        260 buff' len').1 = 0 ∧
    (da9063_read env (da9063_read env (da9063_probe dev0).2 130 buff len).2.2
        260 buff' len').2.2 =
      { priv := ⟨2, 0x2, 0xff⟩,
        bus := dev0.bus ++ [⟨bus_op.read 130 len, 0⟩,
          ⟨bus_op.write env.REG_PAGE_CON [2], 0⟩, ⟨bus_op.read 4 len', 0⟩] } := by
  have p130 : reg_page ⟨0, 0x2, 0xff⟩ 130 = 0 := by decide
  have p260 : reg_page ⟨0, 0x2, 0xff⟩ 260 = 2 := by decide
  have o260 : reg_offset ⟨0, 0x2, 0xff⟩ 260 = 4 := by decide
  have i130 : int_of_uint (reg_offset ⟨0, 0x2, 0xff⟩ 130) = ((130 : Nat) : Int) := by decide
  have i260 : int_of_uint (reg_offset ⟨0, 0x2, 0xff⟩ 260) = ((4 : Nat) : Int) := by decide
  have hd : (da9063_probe dev0).2 = ⟨⟨0, 0x2, 0xff⟩, dev0.bus⟩ := by
    obtain ⟨⟨c, pm, om⟩, bus⟩ := dev0
    simp only at h0
    subst h0
    rfl
  rw [hd]
  have s1 : da9063_select_page env ⟨⟨0, 0x2, 0xff⟩, dev0.bus⟩ 130 =
      (((130 : Nat) : Int), ⟨⟨0, 0x2, 0xff⟩, dev0.bus⟩) := by
    rw [select_page_hit env ⟨⟨0, 0x2, 0xff⟩, dev0.bus⟩ 130 p130]
    show (int_of_uint (reg_offset ⟨0, 0x2, 0xff⟩ 130), udevice.mk ⟨0, 0x2, 0xff⟩ dev0.bus) = _
    rw [i130]
  have r1 := read_of_select_offset env ⟨⟨0, 0x2, 0xff⟩, dev0.bus⟩ 130 buff len 130 _ hv1 s1
    (by decide)
  simp only [hok _ _, ne_eq, not_true_eq_false, if_false] at r1
  rw [r1]
  have s2 : da9063_select_page env
      ⟨⟨0, 0x2, 0xff⟩, dev0.bus ++ [⟨bus_op.read 130 len, 0⟩]⟩ 260 =
      (((4 : Nat) : Int), ⟨⟨2, 0x2, 0xff⟩,
        dev0.bus ++ [⟨bus_op.read 130 len, 0⟩] ++ [⟨bus_op.write env.REG_PAGE_CON [2], 0⟩]⟩) := by
    have hp : reg_page ⟨0, 0x2, 0xff⟩ 260 ≠ 0 := by rw [p260]; decide
    have ho : reg_offset ⟨0, 0x2, 0xff⟩ 260 ≠ env.REG_PAGE_CON :=
      fun h => hpc (h.symm.trans o260)
    have h := select_page_switch_ok env
      ⟨⟨0, 0x2, 0xff⟩, dev0.bus ++ [⟨bus_op.read 130 len, 0⟩]⟩ 260 hp ho (by rw [hok])
    rw [h, hok]
    show (int_of_uint (reg_offset ⟨0, 0x2, 0xff⟩ 260),
      udevice.mk ⟨reg_page ⟨0, 0x2, 0xff⟩ 260, 0x2, 0xff⟩
        (dev0.bus ++ [⟨bus_op.read 130 len, 0⟩] ++
          [⟨bus_op.write env.REG_PAGE_CON [reg_page ⟨0, 0x2, 0xff⟩ 260], 0⟩])) = _
    rw [i260, p260]
  have r2 := read_of_select_offset env ⟨⟨0, 0x2, 0xff⟩, dev0.bus ++ [⟨bus_op.read 130 len, 0⟩]⟩
    260 buff' len' 4 _ hv2 s2 (by decide)
  simp only [hok _ _, ne_eq, not_true_eq_false, if_false] at r2
  rw [r2]
  simp

/-- Witness of C11: the sample configuration (page control register at offset
0), a freshly allocated device. -/
theorem probe_scenario_reads_witness :
    (da9063_read env_ok (da9063_probe ⟨⟨0, 0, 0⟩, []⟩).2 130 [0] 1).2.2 =
      { priv := ⟨0, 0x2, 0xff⟩, bus := [⟨bus_op.read 130 1, 0⟩] } ∧
    (da9063_read env_ok (da9063_read env_ok (da9063_probe ⟨⟨0, 0, 0⟩, []⟩).2 130 [0] 1).2.2
        260 [0] 1).2.2 =
      { priv := ⟨2, 0x2, 0xff⟩,
        bus := [⟨bus_op.read 130 1, 0⟩, ⟨bus_op.write 0 [2], 0⟩, ⟨bus_op.read 4 1, 0⟩] } :=
  have h := probe_scenario_reads env_ok ⟨⟨0, 0, 0⟩, []⟩ [0] [0] 1 1 rfl
    (fun _ op => by cases op <;> rfl) (by decide) (by decide) (by decide)
  ⟨h.2.1, h.2.2.2⟩

/-! ## Error codes -/

/-- C12, the claim as stated fails: on a probed device whose bus fails every
transaction with the code `-121`, the write to address 260 and the read of
address 260 (outside every hole) need the page switch, the bus fails it, and
both return `-121`, which is not `-EIO`. -/
theorem page_switch_failure_is_not_wrapped :
    da9063_reg_valid env_fail 260 = true ∧
    (da9063_write env_fail dev_probed 260 [7]).1 = -121 ∧
    (da9063_read env_fail dev_probed 260 [0] 1).1 = -121 ∧
    (-121 : Int) ≠ - EIO := by
  decide

/-- C12, amended: a data transfer that the bus fails (return code not 0) makes
`da9063_write`, and `da9063_read` of a valid address, return `-EIO` whatever code
the bus reported; a page-switch write that the bus fails (negative return code)
makes them return the code the bus reported for it. -/
theorem transport_failure_codes (env : da9063_env) (dev : udevice) (reg : Nat)
    (buff : List Nat) (len : Nat) (hwf : dev.priv.wf) :
    (0 ≤ (da9063_select_page env dev reg).1 →
      (env.i2c (da9063_select_page env dev reg).2.bus
        (bus_op.write (reg &&& dev.priv.offset_mask) buff)).ret ≠ 0 →
      (da9063_write env dev reg buff).1 = - EIO) ∧
    (da9063_reg_valid env reg = true → 0 ≤ (da9063_select_page env dev reg).1 →
      (env.i2c (da9063_select_page env dev reg).2.bus
        (bus_op.read (reg &&& dev.priv.offset_mask) len)).ret ≠ 0 →
      (da9063_read env dev reg buff len).1 = - EIO) ∧
    (reg_page dev.priv reg ≠ dev.priv.cur_page → reg_offset dev.priv reg ≠ env.REG_PAGE_CON →
      (page_switch_event env dev reg).ret < 0 →
      (da9063_write env dev reg buff).1 = (page_switch_event env dev reg).ret ∧
      (da9063_reg_valid env reg = true →
        (da9063_read env dev reg buff len).1 = (page_switch_event env dev reg).ret)) := by
  have hlt := reg_offset_lt dev.priv reg hwf
  have hio := int_of_uint_offset dev.priv reg hwf
  have hsel : 0 ≤ (da9063_select_page env dev reg).1 →
      da9063_select_page env dev reg =
        (((reg &&& dev.priv.offset_mask : Nat) : Int), (da9063_select_page env dev reg).2) := by
    intro hnn
    rcases select_page_cases env dev reg with ⟨_, hs⟩ | ⟨_, _, hr, hs⟩ | ⟨_, _, _, hs⟩
    · rw [hs, hio]
    · rw [hs] at hnn
      exact absurd hnn (not_le.mpr hr)
    · rw [hs, hio]
  refine ⟨?_, ?_, ?_⟩
  · intro hnn hfail
    rw [write_of_select_offset env dev reg buff _ _ (hsel hnn) hlt]
    simp [hfail]
  · intro hv hnn hfail
    rw [read_of_select_offset env dev reg buff len _ _ hv (hsel hnn) hlt]
    simp [hfail]
  · intro hp ho hr
    have hs := select_page_switch_fail env dev reg hp ho hr
    refine ⟨?_, ?_⟩
    · rw [write_of_select_error env dev reg buff _ _ hs hr]
      rfl
    · intro hv
      rw [read_of_select_error env dev reg buff len _ _ hv hs hr]
      rfl

/-- Witness of C12 amended: on the failing bus the write to address 130 needs no
page switch, its data write fails with `-121`, and the call returns `-EIO`. -/
theorem transport_failure_codes_witness :
    dev_probed.priv.wf ∧ (da9063_write env_fail dev_probed 130 [7]).1 = - EIO :=
  ⟨by decide,
   (transport_failure_codes env_fail dev_probed 130 [7] 1 (by decide)).1
     (by decide) (by decide)⟩

/-! ## Binding the children -/

/-- C13, the claim as stated fails: when the device has no "regulators" subnode,
`da9063_bind` binds no child and returns `-ENXIO`, which is not 0. -/
theorem bind_without_regulators_fails :
    da9063_bind ⟨fun _ => none, fun _ => 3⟩ = (- ENXIO, 0) ∧ - ENXIO ≠ 0 := by
  decide

/-- C13, amended: when the "regulators" subnode is absent, `da9063_bind` binds no
child and returns `-ENXIO`; when it is present, `da9063_bind` returns 0 whatever
the number of children `pmic_bind_children` bound under it, zero included. -/
theorem bind_result (b : bind_env) :
    (b.dev_read_subnode "regulators" = none → da9063_bind b = (- ENXIO, 0)) ∧
    (∀ node : Nat, b.dev_read_subnode "regulators" = some node →
      da9063_bind b = (0, b.pmic_bind_children (some node))) := by
  constructor
  · intro h
    simp [da9063_bind, ofnode_valid, h]
  · intro node h
    simp [da9063_bind, ofnode_valid, h]

/-! ## The masks are constants -/

/-- C14: `da9063_probe` returns 0 and sets the page mask to `0x2` and the offset
mask to `0xff`, leaving the current page and the bus alone; and for every
device, address, payload and bus, `da9063_select_page`, `da9063_write` and
`da9063_read` leave the page mask and the offset mask as they were. -/
theorem masks_are_constant (env : da9063_env) (dev : udevice) (reg : Nat)
    (buff : List Nat) (len : Nat) :
    (da9063_probe dev).1 = 0 ∧
    (da9063_probe dev).2.priv.page_mask = 0x2 ∧
    (da9063_probe dev).2.priv.offset_mask = 0xff ∧
    (da9063_probe dev).2.priv.cur_page = dev.priv.cur_page ∧
    (da9063_probe dev).2.bus = dev.bus ∧
    (da9063_select_page env dev reg).2.priv.page_mask = dev.priv.page_mask ∧
    (da9063_select_page env dev reg).2.priv.offset_mask = dev.priv.offset_mask ∧
    (da9063_write env dev reg buff).2.priv.page_mask = dev.priv.page_mask ∧
    (da9063_write env dev reg buff).2.priv.offset_mask = dev.priv.offset_mask ∧
    (da9063_read env dev reg buff len).2.2.priv.page_mask = dev.priv.page_mask ∧
    (da9063_read env dev reg buff len).2.2.priv.offset_mask = dev.priv.offset_mask := by
  have hs := select_page_masks env dev reg
  refine ⟨rfl, rfl, rfl, rfl, rfl, hs.1, hs.2, ?_, ?_, ?_, ?_⟩
  · rw [write_priv_eq_select]; exact hs.1
  · rw [write_priv_eq_select]; exact hs.2
  · rw [read_priv_eq_select]; split_ifs
    · exact hs.1
    · rfl
  · rw [read_priv_eq_select]; split_ifs
    · exact hs.2
    · rfl

/-! ## Reachable states -/

/-- C15: start from the state `da9063_probe` leaves on a device whose current
page is 0, and serve any finite sequence of read and write requests, with any
addresses and any bus.  In the state reached the masks are still `0x2` and
`0xff`, the current page satisfies `cur_page & page_mask == cur_page`, and it is
0 or 2.  And a further call changes the current page only if it reaches the
selector, the selector issues the page switch as the first transaction of the
call, and the bus does not fail that write; the new current page is then the
page of the address. -/
theorem reachable_current_page (env : da9063_env) (dev0 : udevice) (reqs : List pmic_req)
    (h0 : dev0.priv.cur_page = 0) :
    (da9063_run env (da9063_probe dev0).2 reqs).priv.page_mask = 0x2 ∧
    (da9063_run env (da9063_probe dev0).2 reqs).priv.offset_mask = 0xff ∧
    (da9063_run env (da9063_probe dev0).2 reqs).priv.cur_page &&&
        (da9063_run env (da9063_probe dev0).2 reqs).priv.page_mask =
      (da9063_run env (da9063_probe dev0).2 reqs).priv.cur_page ∧
    ((da9063_run env (da9063_probe dev0).2 reqs).priv.cur_page = 0 ∨
      (da9063_run env (da9063_probe dev0).2 reqs).priv.cur_page = 2) ∧
    (∀ a : pmic_req,
      (da9063_ops env (da9063_run env (da9063_probe dev0).2 reqs) a).2.priv.cur_page ≠
        (da9063_run env (da9063_probe dev0).2 reqs).priv.cur_page →
      reaches_selector env a = true ∧
      0 ≤ (page_switch_event env (da9063_run env (da9063_probe dev0).2 reqs) a.reg).ret ∧
      (da9063_ops env (da9063_run env (da9063_probe dev0).2 reqs) a).2.priv.cur_page =
        reg_page (da9063_run env (da9063_probe dev0).2 reqs).priv a.reg ∧
      ∃ rest : List bus_event,
        (da9063_ops env (da9063_run env (da9063_probe dev0).2 reqs) a).2.bus =
          (da9063_run env (da9063_probe dev0).2 reqs).bus ++
            page_switch_event env (da9063_run env (da9063_probe dev0).2 reqs) a.reg :: rest) := by
  have hinv := run_keeps_probed_pages env reqs (da9063_probe dev0).2 rfl rfl (Or.inl h0)
  generalize da9063_run env (da9063_probe dev0).2 reqs = d at hinv ⊢
  obtain ⟨hm, ho, hc⟩ := hinv
  have hwf : d.priv.wf := by
    unfold da9063_priv.wf
    rw [hm, ho]
    rcases hc with hc | hc <;> rw [hc] <;> decide
  refine ⟨hm, ho, ?_, hc, ?_⟩
  · rw [hm]
    rcases hc with hc | hc <;> rw [hc] <;> rfl
  · intro a hchg
    rcases ops_priv_cases env d a with h | ⟨hreach, hp, hoff, hr, h⟩
    · rw [h] at hchg
      exact absurd rfl hchg
    · refine ⟨hreach, hr, by rw [h], ?_⟩
      have hs := select_page_switch_ok env d a.reg hp hoff hr
      rw [ops_of_select_offset env d a _ hwf hreach hs]
      exact ⟨[⟨data_op d.priv a,
        (env.i2c (d.bus ++ [page_switch_event env d a.reg]) (data_op d.priv a)).ret⟩],
        by simp [page_switch_event, page_switch_op]⟩

/-- Witness of C15: a freshly allocated device, probed, then a write to address
260 and a read of address 5 on the working bus. -/
theorem reachable_current_page_witness :
    (da9063_run env_ok (da9063_probe ⟨⟨0, 0, 0⟩, []⟩).2
        [pmic_req.write 260 [7], pmic_req.read 5 [0] 1]).priv.cur_page = 0 ∨
    (da9063_run env_ok (da9063_probe ⟨⟨0, 0, 0⟩, []⟩).2
        [pmic_req.write 260 [7], pmic_req.read 5 [0] 1]).priv.cur_page = 2 :=
  (reachable_current_page env_ok ⟨⟨0, 0, 0⟩, []⟩
    [pmic_req.write 260 [7], pmic_req.read 5 [0] 1] rfl).2.2.2.1

/-! ## The cached page and the page selected in the device -/

/-- C16, the claim as stated fails: on a probed device (current page 0, page
control register at offset 0, working bus, no bus traffic yet, so the device
is on page 0 as well) the write of the byte 2 to address 0 returns 0; its data
write lands on the page control offset, so the device is on page 2 afterwards,
while the cached current page is still 0. -/
theorem page_con_write_breaks_coherence :
    device_page env_ok.REG_PAGE_CON dev_probed.bus = dev_probed.priv.cur_page ∧
    da9063_ops env_ok dev_probed (pmic_req.write 0 [2]) =
      (0, ⟨priv_probed, [⟨bus_op.write 0 [2], 0⟩]⟩) ∧
    (da9063_run env_ok dev_probed [pmic_req.write 0 [2]]).priv.cur_page = 0 ∧
    device_page env_ok.REG_PAGE_CON
      (da9063_run env_ok dev_probed [pmic_req.write 0 [2]]).bus = 2 := by
  decide

/-- C16, amended: take as the page selected in the device the first byte of the
most recent write at the page control offset that the bus did not fail (page 0
before any such write).  From a state in which the cached current page equals
it (such as current page 0 and no bus traffic yet), after every finite sequence
of read and write requests in which no write resolves to the page control
offset, with any addresses, payloads and bus, the cached current page equals
the page selected in the device. -/
theorem cache_coherent_without_page_con_writes (env : da9063_env) (dev : udevice)
    (reqs : List pmic_req) (hwf : dev.priv.wf)
    (hcoh : device_page env.REG_PAGE_CON dev.bus = dev.priv.cur_page)
    (hno : ∀ reg buff, pmic_req.write reg buff ∈ reqs →
      reg &&& dev.priv.offset_mask ≠ env.REG_PAGE_CON) :
    (da9063_run env dev reqs).priv.cur_page =
      device_page env.REG_PAGE_CON (da9063_run env dev reqs).bus :=
  (run_keeps_coherence env reqs dev hwf hcoh hno).symm

/-- Witness of C16 amended: on a probed device with the working bus, a write to
address 260, a read of address 256 (which resolves to the page control offset),
a write to address 5. -/
theorem cache_coherent_without_page_con_writes_witness :
    (da9063_run env_ok dev_probed
        [pmic_req.write 260 [7], pmic_req.read 256 [0] 1, pmic_req.write 5 [1]]).priv.cur_page =
      device_page env_ok.REG_PAGE_CON
        (da9063_run env_ok dev_probed
          [pmic_req.write 260 [7], pmic_req.read 256 [0] 1, pmic_req.write 5 [1]]).bus :=
  cache_coherent_without_page_con_writes env_ok dev_probed
    [pmic_req.write 260 [7], pmic_req.read 256 [0] 1, pmic_req.write 5 [1]]
    (by decide) (by decide)
    (by
      intro reg buff h
      simp only [List.mem_cons, List.mem_singleton, pmic_req.write.injEq, reduceCtorEq,
        false_or, List.not_mem_nil, or_false] at h
      rcases h with ⟨rfl, _⟩ | ⟨rfl, _⟩ <;> decide)

/-! ## Addresses, pages and offsets under the masks of the probe -/

/-- C17: with the masks `da9063_probe` sets, the page and the offset the selector
computes for an address are `(reg / 128) & 0x2` and `reg & 0xff`; for every
address below 512 they satisfy `page * 128 + offset = reg`, so two different
addresses below 512 never have the same page and the same offset; the address
512 has the page and the offset of address 0. -/
theorem probed_addressing (dev : udevice) :
    (∀ reg : Nat,
      reg_page (da9063_probe dev).2.priv reg = (reg / 128) &&& 0x2 ∧
      reg_offset (da9063_probe dev).2.priv reg = reg &&& 0xff) ∧
    (∀ reg : Nat, reg < 512 →
      ((reg / 128) &&& 0x2) * 128 + (reg &&& 0xff) = reg ∧
      reg_page (da9063_probe dev).2.priv reg * 128 + reg_offset (da9063_probe dev).2.priv reg
        = reg) ∧
    (∀ r1 r2 : Nat, r1 < 512 → r2 < 512 →
      reg_page (da9063_probe dev).2.priv r1 = reg_page (da9063_probe dev).2.priv r2 →
      reg_offset (da9063_probe dev).2.priv r1 = reg_offset (da9063_probe dev).2.priv r2 →
      r1 = r2) ∧
    ((512 : Nat) ≠ 0 ∧
      reg_page (da9063_probe dev).2.priv 512 = reg_page (da9063_probe dev).2.priv 0 ∧
      reg_offset (da9063_probe dev).2.priv 512 = reg_offset (da9063_probe dev).2.priv 0) := by
  have hpage : ∀ reg : Nat, reg_page (da9063_probe dev).2.priv reg = (reg / 128) &&& 0x2 := by
    intro reg
    show ((reg / 128) &&& 0x2) % 256 = (reg / 128) &&& 0x2
    exact Nat.mod_eq_of_lt (lt_of_le_of_lt Nat.and_le_right (by decide))
  have hoff : ∀ reg : Nat, reg_offset (da9063_probe dev).2.priv reg = reg &&& 0xff :=
    fun _ => rfl
  refine ⟨fun reg => ⟨hpage reg, hoff reg⟩, ?_, ?_, ?_⟩
  · intro reg h
    refine ⟨probed_page_offset_sum reg h, ?_⟩
    rw [hpage, hoff]
    exact probed_page_offset_sum reg h
  · intro r1 r2 h1 h2 hp ho
    rw [hpage, hpage] at hp
    rw [hoff, hoff] at ho
    have e1 := probed_page_offset_sum r1 h1
    have e2 := probed_page_offset_sum r2 h2
    rw [hp, ho] at e1
    exact e1.symm.trans e2
  · refine ⟨by decide, ?_, ?_⟩
    · rw [hpage, hpage]
      decide
    · rw [hoff, hoff]
      decide

/-! ## The sign of the selector's result -/

/-- C18: for every device (fields within `u8`) and every address, the selector
returns a negative value exactly when it needed the page switch and the bus
reported a negative code for it.  Otherwise it returns exactly
`reg & offset_mask`, the conversion of that unsigned value to `int` changes
nothing, and the value lies between 0 and 255; the test `offset < 0` of
`da9063_write` and `da9063_read` then does not fire, and they go on to their data
transaction at that offset. -/
theorem select_page_result_sign (env : da9063_env) (dev : udevice) (reg : Nat)
    (buff : List Nat) (len : Nat) (hwf : dev.priv.wf) :
    ((da9063_select_page env dev reg).1 < 0 ↔
      (reg_page dev.priv reg ≠ dev.priv.cur_page ∧
        reg_offset dev.priv reg ≠ env.REG_PAGE_CON ∧
        (page_switch_event env dev reg).ret < 0)) ∧
    int_of_uint (reg &&& dev.priv.offset_mask) = ((reg &&& dev.priv.offset_mask : Nat) : Int) ∧
    (¬ (da9063_select_page env dev reg).1 < 0 →
      (da9063_select_page env dev reg).1 = ((reg &&& dev.priv.offset_mask : Nat) : Int) ∧
      0 ≤ (da9063_select_page env dev reg).1 ∧
      (da9063_select_page env dev reg).1 ≤ 255 ∧
      (da9063_write env dev reg buff).2.bus =
        (da9063_select_page env dev reg).2.bus ++
          [⟨bus_op.write (reg &&& dev.priv.offset_mask) buff,
            (env.i2c (da9063_select_page env dev reg).2.bus
              (bus_op.write (reg &&& dev.priv.offset_mask) buff)).ret⟩] ∧
      (da9063_reg_valid env reg = true →
        (da9063_read env dev reg buff len).2.2.bus =
          (da9063_select_page env dev reg).2.bus ++
            [⟨bus_op.read (reg &&& dev.priv.offset_mask) len,
              (env.i2c (da9063_select_page env dev reg).2.bus
                (bus_op.read (reg &&& dev.priv.offset_mask) len)).ret⟩])) := by
  have hlt : reg &&& dev.priv.offset_mask < 256 := reg_offset_lt dev.priv reg hwf
  have hio := int_of_uint_offset dev.priv reg hwf
  have hnn : ¬ (((reg &&& dev.priv.offset_mask : Nat) : Int) < 0) := by omega
  refine ⟨?_, hio, ?_⟩
  · rcases select_page_cases env dev reg with ⟨hc, hs⟩ | ⟨hp, ho, hr, hs⟩ | ⟨hp, ho, hr, hs⟩
    · rw [hs, hio]
      constructor
      · intro h; exact absurd h hnn
      · rintro ⟨hp, ho, _⟩
        rcases hc with hc | hc
        · exact absurd hc hp
        · exact absurd hc ho
    · rw [hs]
      exact ⟨fun _ => ⟨hp, ho, hr⟩, fun _ => hr⟩
    · rw [hs, hio]
      constructor
      · intro h; exact absurd h hnn
      · rintro ⟨_, _, hr'⟩
        exact absurd hr (not_le.mpr hr')
  · intro hok
    have hs : da9063_select_page env dev reg =
        (((reg &&& dev.priv.offset_mask : Nat) : Int), (da9063_select_page env dev reg).2) := by
      rcases select_page_cases env dev reg with ⟨_, hs⟩ | ⟨_, _, hr, hs⟩ | ⟨_, _, _, hs⟩
      · rw [hs, hio]
      · rw [hs] at hok
        exact absurd hr hok
      · rw [hs, hio]
    refine ⟨by rw [hs], by rw [hs]; omega, by rw [hs]; omega, ?_, ?_⟩
    · rw [write_of_select_offset env dev reg buff _ _ hs hlt]
    · intro hv
      rw [read_of_select_offset env dev reg buff len _ _ hv hs hlt]

/-- Witness of C18: address 260 on a probed device with the working bus. -/
theorem select_page_result_sign_witness :
    dev_probed.priv.wf ∧
    int_of_uint (260 &&& dev_probed.priv.offset_mask) =
      ((260 &&& dev_probed.priv.offset_mask : Nat) : Int) :=
  ⟨by decide, (select_page_result_sign env_ok dev_probed 260 [7] 1 (by decide)).2.1⟩

/-! ## The boot device of the board -/

/-- C19: `spl_board_boot_device` gives a result for every boot mode: `USB_BOOT`
gives `BOOT_DEVICE_BOARD`, `SPI_NOR_BOOT` gives `BOOT_DEVICE_SPI`, `SD2_BOOT` and
`MMC2_BOOT` give `BOOT_DEVICE_MMC1`, `SD3_BOOT` and `MMC3_BOOT` give
`BOOT_DEVICE_MMC2`, every other mode gives `BOOT_DEVICE_NONE`; and, these
enumeration constants being different from `BOOT_DEVICE_NONE`, the result is
`BOOT_DEVICE_NONE` exactly for the modes that are none of those six. -/
theorem spl_board_boot_device_mapping (k : boot_consts) (hd : k.labels_distinct)
    (hn : k.BOOT_DEVICE_NONE ∉
      [k.BOOT_DEVICE_BOARD, k.BOOT_DEVICE_SPI, k.BOOT_DEVICE_MMC1, k.BOOT_DEVICE_MMC2]) :
    spl_board_boot_device k k.USB_BOOT = k.BOOT_DEVICE_BOARD ∧
    spl_board_boot_device k k.SPI_NOR_BOOT = k.BOOT_DEVICE_SPI ∧
    spl_board_boot_device k k.SD2_BOOT = k.BOOT_DEVICE_MMC1 ∧
    spl_board_boot_device k k.MMC2_BOOT = k.BOOT_DEVICE_MMC1 ∧
    spl_board_boot_device k k.SD3_BOOT = k.BOOT_DEVICE_MMC2 ∧
    spl_board_boot_device k k.MMC3_BOOT = k.BOOT_DEVICE_MMC2 ∧
    (∀ mode : Int,
      mode ∉ [k.USB_BOOT, k.SPI_NOR_BOOT, k.SD2_BOOT, k.MMC2_BOOT, k.SD3_BOOT, k.MMC3_BOOT] →
      spl_board_boot_device k mode = k.BOOT_DEVICE_NONE) ∧
    (∀ mode : Int,
      spl_board_boot_device k mode = k.BOOT_DEVICE_NONE ↔
        mode ∉ [k.USB_BOOT, k.SPI_NOR_BOOT, k.SD2_BOOT, k.MMC2_BOOT, k.SD3_BOOT,
          k.MMC3_BOOT]) := by
  simp only [boot_consts.labels_distinct, List.nodup_cons, List.mem_cons, List.mem_singleton,
    List.not_mem_nil, or_false, not_or, List.nodup_nil, and_true, not_false_eq_true] at hd
  simp only [List.mem_cons, List.mem_singleton, List.not_mem_nil, or_false, not_or] at hn
  obtain ⟨⟨h12, h13, h14, h15, h16⟩, ⟨h23, h24, h25, h26⟩, ⟨h34, h35, h36⟩, ⟨h45, h46⟩, h56⟩ := hd
  obtain ⟨n1, n2, n3, n4⟩ := hn
  have hother : ∀ mode : Int,
      mode ∉ [k.USB_BOOT, k.SPI_NOR_BOOT, k.SD2_BOOT, k.MMC2_BOOT, k.SD3_BOOT, k.MMC3_BOOT] →
      spl_board_boot_device k mode = k.BOOT_DEVICE_NONE := by
    intro mode hm
    simp only [List.mem_cons, List.mem_singleton, List.not_mem_nil, or_false, not_or] at hm
    obtain ⟨m1, m2, m3, m4, m5, m6⟩ := hm
    simp [spl_board_boot_device, m1, m2, m3, m4, m5, m6]
  refine ⟨?_, ?_, ?_, ?_, ?_, ?_, hother, ?_⟩
  · simp [spl_board_boot_device]
  · simp [spl_board_boot_device, Ne.symm h12]
  · simp [spl_board_boot_device, Ne.symm h13, Ne.symm h23]
  · simp [spl_board_boot_device, Ne.symm h14, Ne.symm h24]
  · simp [spl_board_boot_device, Ne.symm h15, Ne.symm h25, Ne.symm h35, Ne.symm h45]
  · simp [spl_board_boot_device, Ne.symm h16, Ne.symm h26, Ne.symm h36, Ne.symm h46]
  · intro mode
    constructor
    · intro hres hm
      simp only [List.mem_cons, List.mem_singleton, List.not_mem_nil, or_false] at hm
      unfold spl_board_boot_device at hres
      split_ifs at hres with c1 c2 c3 c4
      · exact n1 hres.symm
      · exact n2 hres.symm
      · exact n3 hres.symm
      · exact n4 hres.symm
      · rcases hm with h | h | h | h | h | h
        · exact c1 h
        · exact c2 h
        · exact c3 (Or.inl h)
        · exact c3 (Or.inr h)
        · exact c4 (Or.inl h)
        · exact c4 (Or.inr h)
    · exact hother mode

/-- Witness of C19: the sample values of the enumeration constants. -/
theorem spl_board_boot_device_mapping_witness :
    boot_consts_sample.labels_distinct ∧
    spl_board_boot_device boot_consts_sample boot_consts_sample.SD3_BOOT =
      boot_consts_sample.BOOT_DEVICE_MMC2 :=
  ⟨by decide,
   (spl_board_boot_device_mapping boot_consts_sample (by decide) (by decide)).2.2.2.2.1⟩

end DA9063
